import Mathlib

/-!
# Weekly movie show scheduler

A shallow embedding of `internal/service/scheduler.go` (the in-memory weekly
schedule, the vote engine and the public operations of the scheduling
service), of the error values of `internal/service/errors.go` and of the drain
loop of `internal/service/update.go`, together with the properties established
about them.

Modelling conventions.

* Go maps are finite partial functions `κ → Option ν`; a nil map is the
  function that is `none` everywhere.
* A `*ShowSchedule` obtained from `getShowSchedule` is mutated in place by the
  source.  Here the mutated slot value is written back with
  `writeShowSchedule`.
* Every `*movie.Movie` held by a slot is a distinct object (each one is a
  reply of the catalog), so slots hold movie values.  The playing movie
  pointer may be nil, which the source tests for, hence `Option Movie`.
* `int32` values are integers; the only arithmetic on them is
  `CurrentVotes++`, which wraps around (`wrapInt32`).
* A run-time panic (index out of range, nil dereference) is the outcome
  `fault`; the server state returned with it is the memory at the time of the
  panic (the gRPC server recovers from panics in handlers).
* The mutex `muSchedule` is not part of the server value: a public operation
  locks it on entry and releases it on every exit.  Only the drain loop of the
  refresh worker, which can keep it, carries a held/free flag (`DrainState`).
-/

set_option linter.dupNamespace false

namespace Scheduling

/-! ## Data model -/

/-- Modelled from the spec: the catalog's movie resource `movie.Movie` (MovieRef:
identifier, display metadata, current vote count), declared in another
package.  The source reads and writes `Id` and `CurrentVotes` (an `int32`);
`Title` stands for the display metadata. -/
structure Movie where
  Id : String
  Title : String
  CurrentVotes : Int
deriving DecidableEq, Repr

/-- The zero value `movie.Movie{}`. -/
def Movie.zero : Movie := { Id := "", Title := "", CurrentVotes := 0 }

/-- Modelled from the spec: the slot state `scheduler.ShowSchedule` (generated
code that is not part of the sources): play time, playing movie (a pointer,
possibly nil) and the waiting list. -/
structure ShowSchedule where
  PlayTime : String
  Movie : Option Movie
  VotedMovies : List Scheduling.Movie
deriving DecidableEq, Repr

/-- Modelled from the spec: `scheduler.ShowsSchedule`, a map from show number to
slot. -/
structure ShowsSchedule where
  ShowsSchedule : Int → Option ShowSchedule

/-- Modelled from the spec: `scheduler.ScreensSchedule`, a map from screen name
to the shows of that screen. -/
structure ScreensSchedule where
  ScreensSchedule : String → Option ShowsSchedule

/-- Modelled from the spec: `scheduler.DaysSchedule`, a map from week day to the
screens of that day. -/
structure DaysSchedule where
  DaysSchedule : Int → Option ScreensSchedule

/-- The part of `scheduleAPIServer` that holds state: the weekly schedule. -/
structure scheduleAPIServer where
  weeklySchedule : DaysSchedule

/-- Status codes of the errors the service returns. -/
inductive Code where
  | Canceled
  | Unknown
  | InvalidArgument
  | DeadlineExceeded
  | NotFound
  | AlreadyExists
  | PermissionDenied
  | ResourceExhausted
  | FailedPrecondition
  | Internal
deriving DecidableEq, Repr

/-- The errors of `errors.go` that the scheduler uses, one constructor per error
function, and `remote` for an error returned by a collaborator. -/
inductive Err where
  | errMissingCredential (cred : String)
  | errIncorrectVal (val : String)
  | errNoMovieScheduleForWeekday (weekday : Int)
  | errNoMovieScheduleForScreen (screen : String)
  | errNoMovieScheduleForShow (showNumber : Int)
  | errNoMovieScheduleExist (movieID : String)
  | errMovieScheduleExist (movieID : String)
  | errNoVotedMovieRoom
  | remote (code : Code) (msg : String)
deriving DecidableEq, Repr

/-- The status code each error is built with in `errors.go`. -/
def Err.code : Err → Code
  | .errMissingCredential _ => .FailedPrecondition
  | .errIncorrectVal _ => .InvalidArgument
  | .errNoMovieScheduleForWeekday _ => .Unknown
  | .errNoMovieScheduleForScreen _ => .Unknown
  | .errNoMovieScheduleForShow _ => .Unknown
  | .errNoMovieScheduleExist _ => .Unknown
  | .errMovieScheduleExist _ => .Unknown
  | .errNoVotedMovieRoom => .ResourceExhausted
  | .remote c _ => c

/-- Result of a call: a payload, an error value, or a run-time panic. -/
inductive Outcome (α : Type) where
  | ok (a : α)
  | error (e : Err)
  | fault
deriving DecidableEq, Repr

/-- A Go result pair `(value, error)` of which exactly one is set: the reply of a
collaborator (account service, movie catalog) or of a store lookup. -/
inductive Reply (α : Type) where
  | success (a : α)
  | failure (e : Err)
deriving DecidableEq, Repr

/-! ## Configuration -/

def weekDays : List Int := [1, 2, 3, 4, 5, 6, 7]

def screensAvailable : List String := ["Screen 1"]

def maxMoviesVoted : Nat := 4

/-- The shows of a day: `(playtime, showID)`. -/
def showsPerDay : List (String × Int) :=
  [("11am", 1), ("3pm", 2), ("6pm", 3), ("9pm", 4)]

/-! ## Machine integers and strings -/

/-- Two's complement wrap-around of an integer into `int32`. -/
def wrapInt32 (x : Int) : Int := (x + 2147483648) % 4294967296 - 2147483648

/-- The statement `CurrentVotes++` on an `int32`. -/
def incVotes (m : Movie) : Movie :=
  { m with CurrentVotes := wrapInt32 (m.CurrentVotes + 1) }

/-- The Go call `strings.Trim(s, " ")`: leading and trailing spaces removed. -/
def trimSpaces (s : String) : String :=
  String.mk (((s.data.dropWhile (fun c => c == ' ')).reverse.dropWhile
    (fun c => c == ' ')).reverse)

/-! ## Maps -/

/-- The empty (or nil) Go map. -/
def mapEmpty {κ ν : Type} : κ → Option ν := fun _ => none

/-- The assignment `m[k] = v` on a Go map. -/
def mapInsert {κ ν : Type} [DecidableEq κ] (m : κ → Option ν) (k : κ) (v : ν) :
    κ → Option ν :=
  fun k' => if k' = k then some v else m k'

/-! ## Store -/

/-- The slot every show starts with. -/
def initialShow (playtime : String) : ShowSchedule :=
  { PlayTime := playtime, Movie := some Movie.zero, VotedMovies := [] }

/-- The server value built by `NewShowScheduler` before initialization: an
empty `DaysSchedule` map. -/
def emptyServer : scheduleAPIServer :=
  { weeklySchedule := { DaysSchedule := mapEmpty } }

/-- The method `initializeSchedule`: three nested loops that fill the maps. -/
def initializeSchedule (scheduleAPI : scheduleAPIServer) : scheduleAPIServer :=
  { weeklySchedule :=
    { DaysSchedule :=
        weekDays.foldl
          (fun days weekDay =>
            mapInsert days weekDay
              { ScreensSchedule :=
                  screensAvailable.foldl
                    (fun screens screen =>
                      mapInsert screens screen
                        { ShowsSchedule :=
                            showsPerDay.foldl
                              (fun shows sh =>
                                mapInsert shows sh.2 (initialShow sh.1))
                              mapEmpty })
                    mapEmpty })
          scheduleAPI.weeklySchedule.DaysSchedule } }

/-- The method `getDaySchedule`. -/
def getDaySchedule (scheduleAPI : scheduleAPIServer) (weekDay : Int) :
    Reply ScreensSchedule :=
  match scheduleAPI.weeklySchedule.DaysSchedule weekDay with
  | none => .failure (.errNoMovieScheduleForWeekday weekDay)
  | some daySchedule => .success daySchedule

/-- The method `getShowSchedule`. -/
def getShowSchedule (scheduleAPI : scheduleAPIServer) (weekDay showNumber : Int)
    (screen : String) : Reply ShowSchedule :=
  match getDaySchedule scheduleAPI weekDay with
  | .failure e => .failure e
  | .success daySchedule =>
    match daySchedule.ScreensSchedule screen with
    | none => .failure (.errNoMovieScheduleForScreen screen)
    | some screenSchedule =>
      match screenSchedule.ShowsSchedule showNumber with
      | none => .failure (.errNoMovieScheduleForShow showNumber)
      | some showSchedule => .success showSchedule

/-- The effect of assigning through the `*ShowSchedule` that `getShowSchedule`
returned: the slot stored under the key becomes `slot`.  Nothing happens when
the key is absent (the source never holds such a pointer). -/
def writeShowSchedule (scheduleAPI : scheduleAPIServer) (weekDay showNumber : Int)
    (screen : String) (slot : ShowSchedule) : scheduleAPIServer :=
  match scheduleAPI.weeklySchedule.DaysSchedule weekDay with
  | none => scheduleAPI
  | some daySchedule =>
    match daySchedule.ScreensSchedule screen with
    | none => scheduleAPI
    | some screenSchedule =>
      match screenSchedule.ShowsSchedule showNumber with
      | none => scheduleAPI
      | some _ =>
        { weeklySchedule :=
          { DaysSchedule :=
              mapInsert scheduleAPI.weeklySchedule.DaysSchedule weekDay
                { ScreensSchedule :=
                    mapInsert daySchedule.ScreensSchedule screen
                      { ShowsSchedule :=
                          mapInsert screenSchedule.ShowsSchedule showNumber slot } } } }

/-- The method `existInSchedule`, returning the pair `(bool, error)`. -/
def existInSchedule (scheduleAPI : scheduleAPIServer) (weekDay showNumber : Int)
    (screen movieID : String) : Bool × Option Err :=
  match getShowSchedule scheduleAPI weekDay showNumber screen with
  | .failure e => (false, some e)
  | .success showSchedule =>
    match showSchedule.Movie with
    | none => (false, none)
    | some movie =>
      if movie.Id = movieID then (true, none)
      else (false, some (.errMovieScheduleExist movieID))

/-! ## Vote engine -/

/-- The loop of `higherVotesIndex`: `i` is the position of the head of the
remaining list, `votes` and `index` are the loop variables. -/
def higherVotesLoop : List Movie → Nat → Int → Nat → Nat
  | [], _, _, index => index
  | movieItem :: rest, i, votes, index =>
    if movieItem.CurrentVotes > votes then
      higherVotesLoop rest (i + 1) movieItem.CurrentVotes i
    else
      higherVotesLoop rest (i + 1) votes index

/-- The function `higherVotesIndex`; `none` is the panic of `movies[0]` on an
empty list. -/
def higherVotesIndex : List Movie → Option Nat
  | [] => none
  | first :: rest => some (higherVotesLoop (first :: rest) 0 first.CurrentVotes 0)

/-- The function `swapMovies`: the new playing movie, the new waiting list and
the returned index; `none` is a panic. -/
def swapMovies (movieItem : Movie) (votedMovies : List Movie) :
    Option (Movie × List Movie × Nat) :=
  match higherVotesIndex votedMovies with
  | none => none
  | some index =>
    match votedMovies[index]? with
    | none => none
    | some top =>
      if movieItem.CurrentVotes < top.CurrentVotes then
        some (top, votedMovies.set index movieItem, index)
      else
        some (movieItem, votedMovies, index)

/-- The loop of `VoteUpMovie` over the waiting list: the first entry whose id
matches gets one more vote, then the loop breaks. -/
def voteFirst (movieID : String) : List Movie → List Movie
  | [] => []
  | movieItem :: rest =>
    if movieItem.Id = movieID then incVotes movieItem :: rest
    else movieItem :: voteFirst movieID rest

/-! ## Requests -/

/-- Modelled from the spec: the request of `VoteUpMovie` (generated code), with
the fields its getters read. -/
structure VoteUpMovieRequest where
  MovieId : String
  UserId : String
  Screen : String
  WeekDay : Int
  ShowNumber : Int
deriving DecidableEq, Repr

/-- Modelled from the spec: the request of `CreateMovieDaySchedule` (generated
code), with the fields its getters read. -/
structure CreateMovieDayScheduleRequest where
  WeekDay : Int
  Screen : String
  Show : Int
  MovieId : String
deriving DecidableEq, Repr

/-- Modelled from the spec: the request of `AddVotedMovie` (generated code), with
the fields its getters read. -/
structure AddVotedMovieRequest where
  WeekDay : Int
  Screen : String
  Show : Int
  MovieId : String
deriving DecidableEq, Repr

/-- Modelled from the spec: the request of `DeleteMovieDaySchedule` (generated
code), with the fields its getters read. -/
structure DeleteMovieDayScheduleRequest where
  WeekDay : Int
  Screen : String
  Show : Int
  MovieId : String
deriving DecidableEq, Repr

/-- Modelled from the spec: the request of `GetDaySchedule` (generated code). -/
structure GetDayScheduleRequest where
  WeekDay : Int
deriving DecidableEq, Repr

/-- Modelled from the spec: the request of `GetShowSchedule` (generated code). -/
structure GetShowScheduleRequest where
  WeekDay : Int
  Screen : String
  Show : Int
deriving DecidableEq, Repr

/-! ## Public operations -/

/-- The validation closure of `VoteUpMovie`: the first failing case of the
switch, or nil. -/
def validateVoteUp (voteReq : VoteUpMovieRequest) : Option Err :=
  if trimSpaces voteReq.Screen = "" then some (.errMissingCredential "Screen")
  else if trimSpaces voteReq.UserId = "" then some (.errMissingCredential "User Id")
  else if trimSpaces voteReq.MovieId = "" then some (.errMissingCredential "Movie Id")
  else if voteReq.WeekDay ≤ 0 ∨ voteReq.WeekDay > 7 then some (.errIncorrectVal "Week day")
  else if voteReq.ShowNumber ≤ 0 then some (.errIncorrectVal "Show number")
  else none

/-- The validation closure of `CreateMovieDaySchedule`. -/
def validateCreate (makeReq : CreateMovieDayScheduleRequest) : Option Err :=
  if makeReq.WeekDay ≤ 0 ∨ makeReq.WeekDay > 7 then some (.errIncorrectVal "Week day")
  else if trimSpaces makeReq.Screen = "" then some (.errMissingCredential "Screen")
  else if trimSpaces makeReq.MovieId = "" then some (.errMissingCredential "Movie Id")
  else if makeReq.Show ≤ 0 then some (.errIncorrectVal "Show number")
  else none

/-- The validation closure of `AddVotedMovie`. -/
def validateAdd (addReq : AddVotedMovieRequest) : Option Err :=
  if addReq.WeekDay ≤ 0 ∨ addReq.WeekDay > 7 then some (.errIncorrectVal "Week day")
  else if trimSpaces addReq.Screen = "" then some (.errMissingCredential "Screen")
  else if addReq.Show ≤ 0 then some (.errIncorrectVal "Show number")
  else if trimSpaces addReq.MovieId = "" then some (.errMissingCredential "Movie ID")
  else none

/-- The validation closure of `DeleteMovieDaySchedule`. -/
def validateDelete (delReq : DeleteMovieDayScheduleRequest) : Option Err :=
  if delReq.WeekDay ≤ 0 ∨ delReq.WeekDay > 7 then some (.errIncorrectVal "Week day")
  else if trimSpaces delReq.Screen = "" then some (.errMissingCredential "Screen")
  else if delReq.Show ≤ 0 then some (.errIncorrectVal "Show number")
  else if trimSpaces delReq.MovieId = "" then some (.errMissingCredential "Movie ID")
  else none

/-- The validation closure of `GetShowSchedule`. -/
def validateGetShow (getReq : GetShowScheduleRequest) : Option Err :=
  if getReq.WeekDay ≤ 0 ∨ getReq.WeekDay > 7 then some (.errIncorrectVal "Week day")
  else if trimSpaces getReq.Screen = "" then some (.errMissingCredential "Screen")
  else if getReq.Show ≤ 0 then some (.errIncorrectVal "Show number")
  else none

/-- The operation `VoteUpMovie`.  `auth` is the reply of `AuthenticateRequest`. -/
def VoteUpMovie (scheduleAPI : scheduleAPIServer) (auth : Reply Unit)
    (voteReq : VoteUpMovieRequest) : scheduleAPIServer × Outcome Movie :=
  match auth with
  | .failure err => (scheduleAPI, .error err)
  | .success _ =>
    match validateVoteUp voteReq with
    | some err => (scheduleAPI, .error err)
    | none =>
      match getShowSchedule scheduleAPI voteReq.WeekDay voteReq.ShowNumber voteReq.Screen with
      | .failure err => (scheduleAPI, .error err)
      | .success showSchedule =>
        match showSchedule.Movie with
        | none => (scheduleAPI, .fault)
        | some playing =>
          if playing.Id = voteReq.MovieId then
            (writeShowSchedule scheduleAPI voteReq.WeekDay voteReq.ShowNumber voteReq.Screen
              { showSchedule with Movie := some (incVotes playing) },
             .ok (incVotes playing))
          else
            match swapMovies playing (voteFirst voteReq.MovieId showSchedule.VotedMovies) with
            | none =>
              (writeShowSchedule scheduleAPI voteReq.WeekDay voteReq.ShowNumber voteReq.Screen
                { showSchedule with
                  VotedMovies := voteFirst voteReq.MovieId showSchedule.VotedMovies },
               .fault)
            | some (playing', voted', _) =>
              (writeShowSchedule scheduleAPI voteReq.WeekDay voteReq.ShowNumber voteReq.Screen
                { showSchedule with Movie := some playing', VotedMovies := voted' },
               .ok playing')

/-- The operation `CreateMovieDaySchedule`.  `auth` is the reply of
`AuthenticateRequest`, `catalog` the reply of `GetMovie`. -/
def CreateMovieDaySchedule (scheduleAPI : scheduleAPIServer) (auth : Reply Unit)
    (catalog : Reply Movie) (makeReq : CreateMovieDayScheduleRequest) :
    scheduleAPIServer × Outcome Unit :=
  match auth with
  | .failure err => (scheduleAPI, .error err)
  | .success _ =>
    match validateCreate makeReq with
    | some err => (scheduleAPI, .error err)
    | none =>
      match catalog with
      | .failure err => (scheduleAPI, .error err)
      | .success movieItem =>
        match existInSchedule scheduleAPI makeReq.WeekDay makeReq.Show makeReq.Screen
            movieItem.Id with
        | (_, some err) => (scheduleAPI, .error err)
        | (true, none) => (scheduleAPI, .error (.errMovieScheduleExist movieItem.Id))
        | (false, none) =>
          match getShowSchedule scheduleAPI makeReq.WeekDay makeReq.Show makeReq.Screen with
          | .failure _ => (scheduleAPI, .fault)
          | .success showSchedule =>
            (writeShowSchedule scheduleAPI makeReq.WeekDay makeReq.Show makeReq.Screen
              { showSchedule with Movie := some movieItem },
             .ok ())

/-- The operation `AddVotedMovie`. -/
def AddVotedMovie (scheduleAPI : scheduleAPIServer) (auth : Reply Unit)
    (catalog : Reply Movie) (addReq : AddVotedMovieRequest) :
    scheduleAPIServer × Outcome Unit :=
  match auth with
  | .failure err => (scheduleAPI, .error err)
  | .success _ =>
    match validateAdd addReq with
    | some err => (scheduleAPI, .error err)
    | none =>
      match catalog with
      | .failure err => (scheduleAPI, .error err)
      | .success movieItem =>
        match existInSchedule scheduleAPI addReq.WeekDay addReq.Show addReq.Screen
            movieItem.Id with
        | (_, some err) => (scheduleAPI, .error err)
        | (true, none) => (scheduleAPI, .error (.errMovieScheduleExist movieItem.Id))
        | (false, none) =>
          match getShowSchedule scheduleAPI addReq.WeekDay addReq.Show addReq.Screen with
          | .failure _ => (scheduleAPI, .fault)
          | .success showSchedule =>
            if showSchedule.VotedMovies.length ≥ maxMoviesVoted then
              (scheduleAPI, .error .errNoVotedMovieRoom)
            else
              (writeShowSchedule scheduleAPI addReq.WeekDay addReq.Show addReq.Screen
                { showSchedule with VotedMovies := showSchedule.VotedMovies ++ [movieItem] },
               .ok ())

/-- The operation `DeleteMovieDaySchedule`. -/
def DeleteMovieDaySchedule (scheduleAPI : scheduleAPIServer) (auth : Reply Unit)
    (delReq : DeleteMovieDayScheduleRequest) : scheduleAPIServer × Outcome Unit :=
  match auth with
  | .failure err => (scheduleAPI, .error err)
  | .success _ =>
    match validateDelete delReq with
    | some err => (scheduleAPI, .error err)
    | none =>
      match existInSchedule scheduleAPI delReq.WeekDay delReq.Show delReq.Screen
          delReq.MovieId with
      | (_, some err) => (scheduleAPI, .error err)
      | (false, none) => (scheduleAPI, .error (.errNoMovieScheduleExist delReq.MovieId))
      | (true, none) =>
        match getShowSchedule scheduleAPI delReq.WeekDay delReq.Show delReq.Screen with
        | .failure _ => (scheduleAPI, .fault)
        | .success showSchedule =>
          match showSchedule.Movie with
          | none => (scheduleAPI, .fault)
          | some playing =>
            match swapMovies { playing with CurrentVotes := -1 } showSchedule.VotedMovies with
            | none =>
              (writeShowSchedule scheduleAPI delReq.WeekDay delReq.Show delReq.Screen
                { showSchedule with Movie := some { playing with CurrentVotes := -1 } },
               .fault)
            | some (playing', voted', index) =>
              if index + 1 ≤ voted'.length then
                (writeShowSchedule scheduleAPI delReq.WeekDay delReq.Show delReq.Screen
                  { showSchedule with
                    Movie := some playing',
                    VotedMovies := voted'.take index ++ voted'.drop (index + 1) },
                 .ok ())
              else
                (writeShowSchedule scheduleAPI delReq.WeekDay delReq.Show delReq.Screen
                  { showSchedule with Movie := some playing', VotedMovies := voted' },
                 .fault)

/-- The operation `GetDaySchedule` (a read: the server state is not returned). -/
def GetDaySchedule (scheduleAPI : scheduleAPIServer) (getReq : GetDayScheduleRequest) :
    Outcome ScreensSchedule :=
  if getReq.WeekDay ≤ 0 ∨ getReq.WeekDay > 7 then .error (.errIncorrectVal "Week Day")
  else
    match getDaySchedule scheduleAPI getReq.WeekDay with
    | .failure err => .error err
    | .success daySchedule => .ok daySchedule

/-- The operation `GetShowSchedule` (a read: the server state is not returned). -/
def GetShowSchedule (scheduleAPI : scheduleAPIServer) (getReq : GetShowScheduleRequest) :
    Outcome ShowSchedule :=
  match validateGetShow getReq with
  | some err => .error err
  | none =>
    match getShowSchedule scheduleAPI getReq.WeekDay getReq.Show getReq.Screen with
    | .failure err => .error err
    | .success showSchedule => .ok showSchedule

/-- The assignment `*movieSchedule = *movieItem` guarded by the id test of
`updateMovieInfo`. -/
def refreshMovie (movieItem movieSchedule : Movie) : Movie :=
  if movieSchedule.Id = movieItem.Id then movieItem else movieSchedule

/-- The method `updateMovieInfo`: the waiting entries are visited first, the
playing movie last (a nil playing movie panics there). -/
def updateMovieInfo (scheduleAPI : scheduleAPIServer) (weekDay showNumber : Int)
    (screen : String) (movieItem : Movie) : scheduleAPIServer × Outcome Unit :=
  match getShowSchedule scheduleAPI weekDay showNumber screen with
  | .failure _ => (scheduleAPI, .ok ())
  | .success showShedule =>
    match showShedule.Movie with
    | none =>
      (writeShowSchedule scheduleAPI weekDay showNumber screen
        { showShedule with
          VotedMovies := showShedule.VotedMovies.map (refreshMovie movieItem) },
       .fault)
    | some playing =>
      (writeShowSchedule scheduleAPI weekDay showNumber screen
        { showShedule with
          Movie := some (refreshMovie movieItem playing),
          VotedMovies := showShedule.VotedMovies.map (refreshMovie movieItem) },
       .ok ())

/-! ## Derived notions used in the statements -/

/-- The movies of a slot: the playing movie (when set) followed by the waiting
list. -/
def slotMovies (slot : ShowSchedule) : List Movie :=
  slot.Movie.toList ++ slot.VotedMovies

/-- The slot has a playing movie, and the ids of the playing movie and of the
waiting entries are pairwise distinct. -/
def NoDuplicateIds (slot : ShowSchedule) : Prop :=
  slot.Movie.isSome = true ∧ ((slotMovies slot).map Movie.Id).Nodup

instance (slot : ShowSchedule) : Decidable (NoDuplicateIds slot) :=
  inferInstanceAs (Decidable (slot.Movie.isSome = true ∧ ((slotMovies slot).map Movie.Id).Nodup))

/-- Adding `n` votes (no wrap-around) to the movies whose id is `movieID`. -/
def addVotes (movieID : String) (n : Nat) (m : Movie) : Movie :=
  if m.Id = movieID then { m with CurrentVotes := m.CurrentVotes + n } else m

/-- The fields of a request are valid for `VoteUpMovie`. -/
abbrev ValidVoteUp (voteReq : VoteUpMovieRequest) : Prop :=
  trimSpaces voteReq.Screen ≠ "" ∧ trimSpaces voteReq.UserId ≠ "" ∧
    trimSpaces voteReq.MovieId ≠ "" ∧ 0 < voteReq.WeekDay ∧ voteReq.WeekDay ≤ 7 ∧
    0 < voteReq.ShowNumber

/-- The fields of a request are valid for `DeleteMovieDaySchedule`. -/
abbrev ValidDelete (delReq : DeleteMovieDayScheduleRequest) : Prop :=
  0 < delReq.WeekDay ∧ delReq.WeekDay ≤ 7 ∧ trimSpaces delReq.Screen ≠ "" ∧
    0 < delReq.Show ∧ trimSpaces delReq.MovieId ≠ ""

/-- The fields of a request are valid for `CreateMovieDaySchedule`. -/
abbrev ValidCreate (makeReq : CreateMovieDayScheduleRequest) : Prop :=
  0 < makeReq.WeekDay ∧ makeReq.WeekDay ≤ 7 ∧ trimSpaces makeReq.Screen ≠ "" ∧
    trimSpaces makeReq.MovieId ≠ "" ∧ 0 < makeReq.Show

/-- The fields of a request are valid for `AddVotedMovie`. -/
abbrev ValidAdd (addReq : AddVotedMovieRequest) : Prop :=
  0 < addReq.WeekDay ∧ addReq.WeekDay ≤ 7 ∧ trimSpaces addReq.Screen ≠ "" ∧
    0 < addReq.Show ∧ trimSpaces addReq.MovieId ≠ ""

/-- The specification's vote: "incrementing a movie's vote count by exactly 1". -/
def plusOneVote (m : Movie) : Movie :=
  { m with CurrentVotes := m.CurrentVotes + 1 }

/-- The specification's `indexOfHighestVotes`: the index of the waiting entry with
the greatest vote count, the earliest one on ties; that is, the first entry
whose count no entry of the list exceeds. -/
def indexOfHighestVotes_spec (waiting : List Movie) : Nat :=
  waiting.findIdx (fun m => decide (∀ x ∈ waiting, x.CurrentVotes ≤ m.CurrentVotes))

/-- The specification's `promoteIfHigher`: the playing movie is compared with the
waiting entry identified by `indexOfHighestVotes`; if the waiting entry's count
is strictly greater the two values are swapped, otherwise nothing changes. -/
def promoteIfHigher_spec (playing : Movie) (waiting : List Movie) : Movie × List Movie :=
  match waiting[indexOfHighestVotes_spec waiting]? with
  | none => (playing, waiting)
  | some top =>
    if playing.CurrentVotes < top.CurrentVotes then
      (top, waiting.set (indexOfHighestVotes_spec waiting) playing)
    else (playing, waiting)

/-- The specification's resolution of the vote target: by identifier match against
the playing movie first, then the waiting list (its first matching entry); the
target gets exactly one more vote. -/
def incrementTarget_spec (playing : Movie) (waiting : List Movie) (movieID : String) :
    Movie × List Movie :=
  if playing.Id = movieID then (plusOneVote playing, waiting)
  else
    match waiting[waiting.findIdx (fun m => decide (m.Id = movieID))]? with
    | none => (playing, waiting)
    | some target =>
      (playing,
        waiting.set (waiting.findIdx (fun m => decide (m.Id = movieID))) (plusOneVote target))

/-- The vote step as the specification words it: "increments the target's vote
count by 1; then runs `promoteIfHigher`".  Written from the specification
alone, with none of the functions that embed the source. -/
def VoteUp_spec (slot : ShowSchedule) (movieID : String) : Option ShowSchedule :=
  match slot.Movie with
  | none => none
  | some playing =>
    some { slot with
      Movie := some (promoteIfHigher_spec
        (incrementTarget_spec playing slot.VotedMovies movieID).1
        (incrementTarget_spec playing slot.VotedMovies movieID).2).1,
      VotedMovies := (promoteIfHigher_spec
        (incrementTarget_spec playing slot.VotedMovies movieID).1
        (incrementTarget_spec playing slot.VotedMovies movieID).2).2 }

/-- The server after `n` consecutive successful `VoteUpMovie` calls with the same
request; `none` when one of the calls does not succeed. -/
def voteUpRepeat (voteReq : VoteUpMovieRequest) : Nat → scheduleAPIServer →
    Option scheduleAPIServer
  | 0, scheduleAPI => some scheduleAPI
  | n + 1, scheduleAPI =>
    match VoteUpMovie scheduleAPI (.success ()) voteReq with
    | (next, .ok _) => voteUpRepeat voteReq n next
    | (_, .error _) => none
    | (_, .fault) => none

/-- One store-mutating step: a public write operation with any request and any
collaborator replies, or the application of one refresh result. -/
inductive Step : scheduleAPIServer → scheduleAPIServer → Prop where
  | create (s : scheduleAPIServer) (auth : Reply Unit) (catalog : Reply Movie)
      (makeReq : CreateMovieDayScheduleRequest) :
      Step s (CreateMovieDaySchedule s auth catalog makeReq).1
  | add (s : scheduleAPIServer) (auth : Reply Unit) (catalog : Reply Movie)
      (addReq : AddVotedMovieRequest) :
      Step s (AddVotedMovie s auth catalog addReq).1
  | vote (s : scheduleAPIServer) (auth : Reply Unit) (voteReq : VoteUpMovieRequest) :
      Step s (VoteUpMovie s auth voteReq).1
  | delete (s : scheduleAPIServer) (auth : Reply Unit)
      (delReq : DeleteMovieDayScheduleRequest) :
      Step s (DeleteMovieDaySchedule s auth delReq).1
  | refresh (s : scheduleAPIServer) (weekDay showNumber : Int) (screen : String)
      (movieItem : Movie) :
      Step s (updateMovieInfo s weekDay showNumber screen movieItem).1

/-- The states reachable from the initialized store. -/
inductive Reachable : scheduleAPIServer → Prop where
  | init : Reachable (initializeSchedule emptyServer)
  | step (s next : scheduleAPIServer) : Reachable s → Step s next → Reachable next

/-- The initialized store with the slot of week day 1, show 1 on "Screen 1"
replaced by `slot`. -/
def serverWith (slot : ShowSchedule) : scheduleAPIServer :=
  writeShowSchedule (initializeSchedule emptyServer) 1 1 "Screen 1" slot

/-- The slot of the promotion scenario: playing movie with 3 votes, waiting list
`[(a, 5), (b, 2)]`. -/
def scenarioSlot : ShowSchedule :=
  ⟨"11am", some ⟨"p", "P", 3⟩, [⟨"a", "A", 5⟩, ⟨"b", "B", 2⟩]⟩

/-- A vote for movie `movieID` on the slot of week day 1, show 1 on "Screen 1". -/
def voteFor (movieID : String) : VoteUpMovieRequest :=
  ⟨movieID, "u1", "Screen 1", 1, 1⟩

/-! ## Startup, uniform operation surface and refresh drain -/

/-- The zero value `&scheduleAPIServer{}`: its `DaysSchedule` map is nil. -/
def zeroServer : scheduleAPIServer :=
  { weeklySchedule := { DaysSchedule := mapEmpty } }

/-- What `NewShowScheduler` produces: `workers` is the server value it builds,
initializes and hands to the two background workers, `served` is the value it
returns to its caller. -/
structure Startup where
  workers : scheduleAPIServer
  served : scheduleAPIServer

/-- The function `NewShowScheduler` (`initializeSchedule` never returns an
error): the initialized `scheduleAPI` goes to the workers, the return
statement is `return &scheduleAPIServer{}, nil`. -/
def NewShowScheduler : Reply Startup :=
  .success { workers := initializeSchedule emptyServer, served := zeroServer }

/-- The fields of a request are valid for `GetShowSchedule`. -/
abbrev ValidGetShow (getReq : GetShowScheduleRequest) : Prop :=
  0 < getReq.WeekDay ∧ getReq.WeekDay ≤ 7 ∧ trimSpaces getReq.Screen ≠ "" ∧
    0 < getReq.Show

/-- The field of a request is valid for `GetDaySchedule`. -/
abbrev ValidGetDay (getReq : GetDayScheduleRequest) : Prop :=
  0 < getReq.WeekDay ∧ getReq.WeekDay ≤ 7

/-- The waiting list of the slot has at most `maxMoviesVoted` entries. -/
abbrev WaitingListBounded (slot : ShowSchedule) : Prop :=
  slot.VotedMovies.length ≤ maxMoviesVoted

/-- The success payloads of the six public operations. -/
inductive Payload where
  | empty
  | movie (m : Movie)
  | daySchedule (d : ScreensSchedule)
  | showSchedule (slot : ShowSchedule)

/-- A call of one of the six public operations, with its request and, where the
operation fetches a movie, the reply of the catalog. -/
inductive Operation where
  | assignMovie (catalog : Reply Movie) (makeReq : CreateMovieDayScheduleRequest)
  | addToWaitingList (catalog : Reply Movie) (addReq : AddVotedMovieRequest)
  | voteUp (voteReq : VoteUpMovieRequest)
  | removeMovie (delReq : DeleteMovieDayScheduleRequest)
  | getDay (getReq : GetDayScheduleRequest)
  | getShow (getReq : GetShowScheduleRequest)

/-- Retagging of a payload. -/
def Outcome.payload {α : Type} (f : α → Payload) : Outcome α → Outcome Payload
  | .ok a => .ok (f a)
  | .error e => .error e
  | .fault => .fault

/-- Running a public operation in an environment whose account service would
answer `auth`.  `GetDaySchedule` and `GetShowSchedule` contain no call of
`AuthenticateRequest`, so `auth` does not reach them. -/
def runOperation (scheduleAPI : scheduleAPIServer) (auth : Reply Unit) :
    Operation → scheduleAPIServer × Outcome Payload
  | .assignMovie catalog makeReq =>
    ((CreateMovieDaySchedule scheduleAPI auth catalog makeReq).1,
      (CreateMovieDaySchedule scheduleAPI auth catalog makeReq).2.payload
        (fun _ => Payload.empty))
  | .addToWaitingList catalog addReq =>
    ((AddVotedMovie scheduleAPI auth catalog addReq).1,
      (AddVotedMovie scheduleAPI auth catalog addReq).2.payload (fun _ => Payload.empty))
  | .voteUp voteReq =>
    ((VoteUpMovie scheduleAPI auth voteReq).1,
      (VoteUpMovie scheduleAPI auth voteReq).2.payload Payload.movie)
  | .removeMovie delReq =>
    ((DeleteMovieDaySchedule scheduleAPI auth delReq).1,
      (DeleteMovieDaySchedule scheduleAPI auth delReq).2.payload (fun _ => Payload.empty))
  | .getDay getReq =>
    (scheduleAPI, (GetDaySchedule scheduleAPI getReq).payload Payload.daySchedule)
  | .getShow getReq =>
    (scheduleAPI, (GetShowSchedule scheduleAPI getReq).payload Payload.showSchedule)

/-- The record `updatedMovie` of `updateMovies`: one fetch result.  The pair
`(movieResource, err)` is a `Reply`. -/
structure updatedMovie where
  weekDay : Int
  showNumber : Int
  screen : String
  movieResource : Reply Movie
deriving DecidableEq, Repr

/-- State of the drain loop of `updateMovies`: the store and whether
`muSchedule` is held. -/
structure DrainState where
  scheduleAPI : scheduleAPIServer
  muLocked : Bool

/-- How the drain loop ends: all results were processed; it is blocked for ever
in `muSchedule.Lock()` with `pending` results not processed (the mutex is
held and the loop itself is the holder); or `updateMovieInfo` panicked, with
`pending` results left. -/
inductive DrainEnd where
  | finished (st : DrainState)
  | blocked (st : DrainState) (pending : List updatedMovie)
  | crashed (st : DrainState) (pending : List updatedMovie)

/-- The drain loop `for res := range resChan` of `updateMovies`, on the
sequence of results received: lock; on `res.err != nil` log and `continue`
(no unlock); otherwise `updateMovieInfo` and unlock. -/
def drainResults : List updatedMovie → DrainState → DrainEnd
  | [], st => .finished st
  | res :: rest, st =>
    if st.muLocked then .blocked st (res :: rest)
    else
      match res.movieResource with
      | .failure _ => drainResults rest { st with muLocked := true }
      | .success movieItem =>
        match updateMovieInfo st.scheduleAPI res.weekDay res.showNumber res.screen
            movieItem with
        | (next, .ok _) => drainResults rest { scheduleAPI := next, muLocked := false }
        | (next, .error _) => .crashed { scheduleAPI := next, muLocked := true } rest
        | (next, .fault) => .crashed { scheduleAPI := next, muLocked := true } rest

/-- The server of a drain end. -/
def DrainEnd.server : DrainEnd → scheduleAPIServer
  | .finished st => st.scheduleAPI
  | .blocked st _ => st.scheduleAPI
  | .crashed st _ => st.scheduleAPI

/-- The results a drain never processed. -/
def DrainEnd.pending : DrainEnd → List updatedMovie
  | .finished _ => []
  | .blocked _ pending => pending
  | .crashed _ pending => pending

/-- Whether the drain ended blocked in `muSchedule.Lock()`. -/
def DrainEnd.isBlocked : DrainEnd → Bool
  | .finished _ => false
  | .blocked _ _ => true
  | .crashed _ _ => false

/-- Whether `muSchedule` is held when the drain ends. -/
def DrainEnd.muLocked : DrainEnd → Bool
  | .finished st => st.muLocked
  | .blocked st _ => st.muLocked
  | .crashed st _ => st.muLocked

/-! ## Store lemmas -/

theorem mapInsert_apply {κ ν : Type} [DecidableEq κ] (m : κ → Option ν) (k k' : κ) (v : ν) :
    mapInsert m k v k' = if k' = k then some v else m k' := rfl

theorem getShowSchedule_write_same (s : scheduleAPIServer) (w sh : Int) (sc : String)
    (old slot : ShowSchedule) (h : getShowSchedule s w sh sc = .success old) :
    getShowSchedule (writeShowSchedule s w sh sc slot) w sh sc = .success slot := by
  unfold getShowSchedule getDaySchedule at h
  cases hd : s.weeklySchedule.DaysSchedule w with
  | none => simp [hd] at h
  | some day =>
    simp only [hd] at h
    cases hs : day.ScreensSchedule sc with
    | none => simp [hs] at h
    | some scr =>
      simp only [hs] at h
      cases hh : scr.ShowsSchedule sh with
      | none => simp [hh] at h
      | some x =>
        simp [writeShowSchedule, hd, hs, hh, getShowSchedule, getDaySchedule, mapInsert_apply]

theorem getShowSchedule_write_other (s : scheduleAPIServer) (w sh : Int) (sc : String)
    (slot : ShowSchedule) (w' sh' : Int) (sc' : String)
    (hne : ¬ (w' = w ∧ sh' = sh ∧ sc' = sc)) :
    getShowSchedule (writeShowSchedule s w sh sc slot) w' sh' sc' =
      getShowSchedule s w' sh' sc' := by
  cases hd : s.weeklySchedule.DaysSchedule w with
  | none => simp [writeShowSchedule, hd]
  | some day =>
    cases hs : day.ScreensSchedule sc with
    | none => simp [writeShowSchedule, hd, hs]
    | some scr =>
      cases hh : scr.ShowsSchedule sh with
      | none => simp [writeShowSchedule, hd, hs, hh]
      | some x =>
        simp only [writeShowSchedule, hd, hs, hh, getShowSchedule, getDaySchedule,
          mapInsert_apply]
        by_cases h1 : w' = w
        · subst h1
          simp only [if_true, hd]
          by_cases h2 : sc' = sc
          · subst h2
            simp only [if_true, hs]
            by_cases h3 : sh' = sh
            · exact absurd ⟨rfl, h3, rfl⟩ hne
            · simp [mapInsert_apply, h3]
          · simp [mapInsert_apply, h2]
        · simp [mapInsert_apply, h1]

/-! ## Vote engine lemmas -/

theorem higherVotesLoop_spec (l : List Movie) :
    ∀ (rest : List Movie) (i : Nat) (votes : Int) (index : Nat),
      l.drop i = rest →
      (∃ m, l[index]? = some m ∧ m.CurrentVotes = votes) →
      (∀ (j : Nat) (m : Movie), j < i → l[j]? = some m → m.CurrentVotes ≤ votes) →
      (∀ (j : Nat) (m : Movie), j < index → l[j]? = some m → m.CurrentVotes < votes) →
      index ≤ i →
      ∃ top, l[higherVotesLoop rest i votes index]? = some top ∧
        (∀ (j : Nat) (m : Movie), l[j]? = some m → m.CurrentVotes ≤ top.CurrentVotes) ∧
        (∀ (j : Nat) (m : Movie), j < higherVotesLoop rest i votes index → l[j]? = some m →
          m.CurrentVotes < top.CurrentVotes) := by
  intro rest
  induction rest with
  | nil =>
    intro i votes index hdrop hidx hle hlt _
    obtain ⟨m, hm, hv⟩ := hidx
    refine ⟨m, by simpa [higherVotesLoop] using hm, ?_, ?_⟩
    · intro j m' hj
      have hlen : l.length ≤ i := List.drop_eq_nil_iff.mp hdrop
      have hjl : j < l.length := by
        rcases List.getElem?_eq_some_iff.mp hj with ⟨h, _⟩
        exact h
      rw [hv]
      exact hle j m' (lt_of_lt_of_le hjl hlen) hj
    · intro j m' hj hjm
      rw [hv]
      exact hlt j m' (by simpa [higherVotesLoop] using hj) hjm
  | cons x rest ih =>
    intro i votes index hdrop hidx hle hlt hii
    have hi : l[i]? = some x := by
      have := congrArg List.head? hdrop
      simpa [List.head?_drop] using this
    have hdrop' : l.drop (i + 1) = rest := by
      have := congrArg List.tail hdrop
      simpa [List.tail_drop] using this
    unfold higherVotesLoop
    by_cases hgt : x.CurrentVotes > votes
    · rw [if_pos hgt]
      apply ih (i + 1) x.CurrentVotes i hdrop' ⟨x, hi, rfl⟩
      · intro j m hj hjm
        rcases Nat.lt_succ_iff_lt_or_eq.mp hj with h | h
        · exact le_of_lt (lt_of_le_of_lt (hle j m h hjm) hgt)
        · subst h
          rw [hi] at hjm
          cases hjm
          exact le_refl _
      · intro j m hj hjm
        exact lt_of_le_of_lt (hle j m hj hjm) hgt
      · exact Nat.le_succ i
    · rw [if_neg hgt]
      apply ih (i + 1) votes index hdrop' hidx
      · intro j m hj hjm
        rcases Nat.lt_succ_iff_lt_or_eq.mp hj with h | h
        · exact hle j m h hjm
        · subst h
          rw [hi] at hjm
          cases hjm
          exact not_lt.mp hgt
      · exact hlt
      · exact Nat.le_succ_of_le hii

theorem higherVotesIndex_spec (movies : List Movie) (hne : movies ≠ []) :
    ∃ i top, higherVotesIndex movies = some i ∧ movies[i]? = some top ∧
      (∀ (j : Nat) (m : Movie), movies[j]? = some m → m.CurrentVotes ≤ top.CurrentVotes) ∧
      (∀ (j : Nat) (m : Movie), j < i → movies[j]? = some m → m.CurrentVotes < top.CurrentVotes) := by
  cases movies with
  | nil => exact absurd rfl hne
  | cons first rest =>
    obtain ⟨top, h1, h2, h3⟩ := higherVotesLoop_spec (first :: rest) (first :: rest) 0
      first.CurrentVotes 0 rfl ⟨first, by simp, rfl⟩ (by intro j m hj; omega)
      (by intro j m hj; omega) (le_refl 0)
    exact ⟨_, top, rfl, h1, h2, h3⟩

theorem swapMovies_eq (playing : Movie) (voted : List Movie) (i : Nat) (top : Movie)
    (hi : higherVotesIndex voted = some i) (ht : voted[i]? = some top) :
    swapMovies playing voted =
      some (if playing.CurrentVotes < top.CurrentVotes then (top, voted.set i playing, i)
        else (playing, voted, i)) := by
  unfold swapMovies
  simp only [hi, ht]
  split <;> rfl

/-- C8: on a non-empty waiting list `higherVotesIndex` returns an index within
bounds whose entry has at least as many votes as every entry and strictly more
votes than every entry at a lower index. -/
theorem C8_higherVotesIndex_first_maximum (movies : List Movie) (hne : movies ≠ []) :
    ∃ i top, higherVotesIndex movies = some i ∧ i < movies.length ∧
      movies[i]? = some top ∧
      (∀ m ∈ movies, m.CurrentVotes ≤ top.CurrentVotes) ∧
      (∀ (j : Nat) (m : Movie), j < i → movies[j]? = some m →
        m.CurrentVotes < top.CurrentVotes) := by
  obtain ⟨i, top, h1, h2, h3, h4⟩ := higherVotesIndex_spec movies hne
  refine ⟨i, top, h1, (List.getElem?_eq_some_iff.mp h2).1, h2, ?_, h4⟩
  intro m hm
  obtain ⟨j, hj⟩ := List.getElem?_of_mem hm
  exact h3 j m hj

theorem C8_higherVotesIndex_first_maximum_witness :
    ([⟨"a", "A", 2⟩, ⟨"b", "B", 5⟩, ⟨"c", "C", 5⟩] : List Movie) ≠ [] ∧
    ∃ i top, higherVotesIndex [⟨"a", "A", 2⟩, ⟨"b", "B", 5⟩, ⟨"c", "C", 5⟩] = some i ∧
      i < ([⟨"a", "A", 2⟩, ⟨"b", "B", 5⟩, ⟨"c", "C", 5⟩] : List Movie).length ∧
      ([⟨"a", "A", 2⟩, ⟨"b", "B", 5⟩, ⟨"c", "C", 5⟩] : List Movie)[i]? = some top ∧
      (∀ m ∈ ([⟨"a", "A", 2⟩, ⟨"b", "B", 5⟩, ⟨"c", "C", 5⟩] : List Movie),
        m.CurrentVotes ≤ top.CurrentVotes) ∧
      (∀ (j : Nat) (m : Movie), j < i →
        ([⟨"a", "A", 2⟩, ⟨"b", "B", 5⟩, ⟨"c", "C", 5⟩] : List Movie)[j]? = some m →
        m.CurrentVotes < top.CurrentVotes) :=
  ⟨by decide, C8_higherVotesIndex_first_maximum _ (by decide)⟩

/-- C9: on a non-empty waiting list `swapMovies` returns the index chosen by
`higherVotesIndex`; when that entry has strictly more votes than the playing
movie the two values are exchanged, otherwise nothing changes; the length of
the list and every other entry are unchanged in both cases. -/
theorem C9_swapMovies_exchange (playing : Movie) (voted : List Movie) (hne : voted ≠ []) :
    ∃ i top playing' voted', higherVotesIndex voted = some i ∧ voted[i]? = some top ∧
      swapMovies playing voted = some (playing', voted', i) ∧
      (playing.CurrentVotes < top.CurrentVotes →
        playing' = top ∧ voted'[i]? = some playing) ∧
      (¬ playing.CurrentVotes < top.CurrentVotes →
        playing' = playing ∧ voted' = voted) ∧
      voted'.length = voted.length ∧
      (∀ j : Nat, j ≠ i → voted'[j]? = voted[j]?) := by
  obtain ⟨i, top, h1, h2, _, _⟩ := higherVotesIndex_spec voted hne
  have hlt : i < voted.length := (List.getElem?_eq_some_iff.mp h2).1
  by_cases hc : playing.CurrentVotes < top.CurrentVotes
  · refine ⟨i, top, top, voted.set i playing, h1, h2, ?_, ?_, ?_, ?_, ?_⟩
    · rw [swapMovies_eq playing voted i top h1 h2, if_pos hc]
    · intro _
      exact ⟨rfl, by simp [hlt]⟩
    · intro h
      exact absurd hc h
    · simp
    · intro j hj
      simp [List.getElem?_set, Ne.symm hj]
  · refine ⟨i, top, playing, voted, h1, h2, ?_, ?_, ?_, rfl, ?_⟩
    · rw [swapMovies_eq playing voted i top h1 h2, if_neg hc]
    · intro h
      exact absurd h hc
    · intro _
      exact ⟨rfl, rfl⟩
    · intro j _
      rfl

theorem C9_swapMovies_exchange_witness :
    ([⟨"a", "A", 5⟩, ⟨"b", "B", 2⟩] : List Movie) ≠ [] ∧
    ∃ i top playing' voted', higherVotesIndex [⟨"a", "A", 5⟩, ⟨"b", "B", 2⟩] = some i ∧
      ([⟨"a", "A", 5⟩, ⟨"b", "B", 2⟩] : List Movie)[i]? = some top ∧
      swapMovies ⟨"p", "P", 3⟩ [⟨"a", "A", 5⟩, ⟨"b", "B", 2⟩] = some (playing', voted', i) ∧
      ((⟨"p", "P", 3⟩ : Movie).CurrentVotes < top.CurrentVotes →
        playing' = top ∧ voted'[i]? = some ⟨"p", "P", 3⟩) ∧
      (¬ (⟨"p", "P", 3⟩ : Movie).CurrentVotes < top.CurrentVotes →
        playing' = ⟨"p", "P", 3⟩ ∧ voted' = [⟨"a", "A", 5⟩, ⟨"b", "B", 2⟩]) ∧
      voted'.length = ([⟨"a", "A", 5⟩, ⟨"b", "B", 2⟩] : List Movie).length ∧
      (∀ j : Nat, j ≠ i → voted'[j]? = ([⟨"a", "A", 5⟩, ⟨"b", "B", 2⟩] : List Movie)[j]?) :=
  ⟨by decide, C9_swapMovies_exchange _ _ (by decide)⟩

/-- C1: on the initialized store, assigning movie "m1" (authentication passing,
the catalog resolving it) to the slot of week day 1, "Screen 1", show 1, whose
playing movie is the unset placeholder, does not succeed: the call returns
`errMovieScheduleExist "m1"` and a following `GetShowSchedule` still returns
the placeholder, whose id is not "m1". -/
theorem C1_create_on_placeholder_slot_fails :
    (CreateMovieDaySchedule (initializeSchedule emptyServer) (.success ())
        (.success ⟨"m1", "M1", 0⟩) ⟨1, "Screen 1", 1, "m1"⟩).2
      = .error (.errMovieScheduleExist "m1") ∧
    GetShowSchedule
        (CreateMovieDaySchedule (initializeSchedule emptyServer) (.success ())
          (.success ⟨"m1", "M1", 0⟩) ⟨1, "Screen 1", 1, "m1"⟩).1 ⟨1, "Screen 1", 1⟩
      = .ok ⟨"11am", some ⟨"", "", 0⟩, []⟩ := by
  constructor <;> rfl

/-- C2: on the initialized store, adding movie "m2" (not present in the slot,
authentication passing, the catalog resolving it) to the empty waiting list of
the slot of week day 1, "Screen 1", show 1 does not succeed: the call returns
`errMovieScheduleExist "m2"` and the waiting list stays empty; on a slot whose
waiting list holds 4 entries the same error is returned, not
`errNoVotedMovieRoom`. -/
theorem C2_add_absent_movie_fails :
    (AddVotedMovie (initializeSchedule emptyServer) (.success ())
        (.success ⟨"m2", "M2", 0⟩) ⟨1, "Screen 1", 1, "m2"⟩).2
      = .error (.errMovieScheduleExist "m2") ∧
    GetShowSchedule
        (AddVotedMovie (initializeSchedule emptyServer) (.success ())
          (.success ⟨"m2", "M2", 0⟩) ⟨1, "Screen 1", 1, "m2"⟩).1 ⟨1, "Screen 1", 1⟩
      = .ok ⟨"11am", some ⟨"", "", 0⟩, []⟩ ∧
    (AddVotedMovie
        (serverWith ⟨"11am", some ⟨"p", "P", 0⟩,
          [⟨"a", "A", 0⟩, ⟨"b", "B", 0⟩, ⟨"c", "C", 0⟩, ⟨"d", "D", 0⟩]⟩)
        (.success ()) (.success ⟨"m2", "M2", 0⟩) ⟨1, "Screen 1", 1, "m2"⟩).2
      = .error (.errMovieScheduleExist "m2") := by
  refine ⟨?_, ?_, ?_⟩ <;> rfl

/-- C6: removing the playing movie "p" from a slot whose only waiting entry "a"
has the vote count -1: the call succeeds, but "a" is not promoted; the slot
keeps "p" as its playing movie (with the count -1) and the waiting entry is
dropped. -/
theorem C6_delete_playing_keeps_it_when_waiting_votes_negative :
    (DeleteMovieDaySchedule (serverWith ⟨"11am", some ⟨"p", "P", 0⟩, [⟨"a", "A", -1⟩]⟩)
        (.success ()) ⟨1, "Screen 1", 1, "p"⟩).2 = .ok () ∧
    GetShowSchedule
        (DeleteMovieDaySchedule (serverWith ⟨"11am", some ⟨"p", "P", 0⟩, [⟨"a", "A", -1⟩]⟩)
          (.success ()) ⟨1, "Screen 1", 1, "p"⟩).1 ⟨1, "Screen 1", 1⟩
      = .ok ⟨"11am", some ⟨"p", "P", -1⟩, []⟩ := by
  constructor <;> rfl

/-- C7: on the initialized store, removing movie "m1", which is neither the
playing movie nor a waiting entry of the slot, fails with
`errMovieScheduleExist "m1"` (the already-exists error), not with
`errNoMovieScheduleExist "m1"`; the slot is unchanged. -/
theorem C7_delete_absent_movie_returns_exists_error :
    (DeleteMovieDaySchedule (initializeSchedule emptyServer) (.success ())
        ⟨1, "Screen 1", 1, "m1"⟩).2 = .error (.errMovieScheduleExist "m1") ∧
    (DeleteMovieDaySchedule (initializeSchedule emptyServer) (.success ())
        ⟨1, "Screen 1", 1, "m1"⟩).2 ≠ .error (.errNoMovieScheduleExist "m1") ∧
    GetShowSchedule
        (DeleteMovieDaySchedule (initializeSchedule emptyServer) (.success ())
          ⟨1, "Screen 1", 1, "m1"⟩).1 ⟨1, "Screen 1", 1⟩
      = .ok ⟨"11am", some ⟨"", "", 0⟩, []⟩ := by
  refine ⟨rfl, ?_, rfl⟩
  decide

theorem noDuplicateIds_iff (slot : ShowSchedule) (p : Movie) (h : slot.Movie = some p) :
    NoDuplicateIds slot ↔ (p.Id :: slot.VotedMovies.map Movie.Id).Nodup := by
  simp [NoDuplicateIds, slotMovies, h]

theorem noDuplicateIds_playing (slot : ShowSchedule) (h : NoDuplicateIds slot) :
    ∃ p, slot.Movie = some p := by
  cases hm : slot.Movie with
  | none => simp [NoDuplicateIds, hm] at h
  | some p => exact ⟨p, rfl⟩

theorem voteFirst_ids (movieID : String) (l : List Movie) :
    (voteFirst movieID l).map Movie.Id = l.map Movie.Id := by
  induction l with
  | nil => rfl
  | cons x rest ih =>
    unfold voteFirst
    by_cases h : x.Id = movieID
    · simp [h, incVotes]
    · simp [h, ih]

theorem voteFirst_length (movieID : String) (l : List Movie) :
    (voteFirst movieID l).length = l.length := by
  have := congrArg List.length (voteFirst_ids movieID l)
  simpa using this

theorem refreshMovie_id (movieItem m : Movie) : (refreshMovie movieItem m).Id = m.Id := by
  unfold refreshMovie
  split
  · next h => exact h.symm
  · rfl

theorem refreshMovie_ids (movieItem : Movie) (l : List Movie) :
    (l.map (refreshMovie movieItem)).map Movie.Id = l.map Movie.Id := by
  induction l with
  | nil => rfl
  | cons x rest ih => simp [refreshMovie_id]

theorem set_perm_of_getElem (l : List Movie) (i : Nat) (top p : Movie)
    (h : l[i]? = some top) : (top :: l.set i p).Perm (p :: l) := by
  induction l generalizing i with
  | nil => simp at h
  | cons x rest ih =>
    cases i with
    | zero =>
      simp at h
      subst h
      simpa using List.Perm.swap p x rest
    | succ n =>
      simp at h
      have := ih n h
      simp only [List.set_cons_succ]
      exact ((List.Perm.swap x top _).trans ((this.cons x).trans (List.Perm.swap p x rest)))

theorem swapMovies_perm (playing : Movie) (voted : List Movie) (playing' : Movie)
    (voted' : List Movie) (i : Nat) (h : swapMovies playing voted = some (playing', voted', i)) :
    (playing' :: voted').Perm (playing :: voted) := by
  unfold swapMovies at h
  cases hi : higherVotesIndex voted with
  | none => simp [hi] at h
  | some idx =>
    simp only [hi] at h
    cases ht : voted[idx]? with
    | none => simp [ht] at h
    | some top =>
      simp only [ht] at h
      by_cases hc : playing.CurrentVotes < top.CurrentVotes
      · simp only [if_pos hc, Option.some.injEq, Prod.mk.injEq] at h
        obtain ⟨h1, h2, _⟩ := h
        subst h1 h2
        exact set_perm_of_getElem voted idx top playing ht
      · simp only [if_neg hc, Option.some.injEq, Prod.mk.injEq] at h
        obtain ⟨h1, h2, _⟩ := h
        subst h1 h2
        exact List.Perm.refl _

theorem swapMovies_index (playing : Movie) (voted : List Movie) (playing' : Movie)
    (voted' : List Movie) (i : Nat) (h : swapMovies playing voted = some (playing', voted', i)) :
    higherVotesIndex voted = some i ∧ voted'.length = voted.length ∧ i < voted.length := by
  unfold swapMovies at h
  cases hi : higherVotesIndex voted with
  | none => simp [hi] at h
  | some idx =>
    simp only [hi] at h
    cases ht : voted[idx]? with
    | none => simp [ht] at h
    | some top =>
      simp only [ht] at h
      have hlt : idx < voted.length := (List.getElem?_eq_some_iff.mp ht).1
      by_cases hc : playing.CurrentVotes < top.CurrentVotes
      · simp only [if_pos hc, Option.some.injEq, Prod.mk.injEq] at h
        obtain ⟨_, h2, h3⟩ := h
        subst h2 h3
        exact ⟨rfl, by simp, hlt⟩
      · simp only [if_neg hc, Option.some.injEq, Prod.mk.injEq] at h
        obtain ⟨_, h2, h3⟩ := h
        subst h2 h3
        exact ⟨rfl, rfl, hlt⟩

theorem invariant_write (s : scheduleAPIServer) (w sh : Int) (sc : String)
    (slot : ShowSchedule) (w' sh' : Int) (sc' : String) (new : ShowSchedule)
    (hg : getShowSchedule s w sh sc = .success slot) (hn : NoDuplicateIds slot)
    (hnew : (w = w' ∧ sh = sh' ∧ sc = sc') → NoDuplicateIds new) :
    ∃ slot', getShowSchedule (writeShowSchedule s w' sh' sc' new) w sh sc = .success slot' ∧
      NoDuplicateIds slot' := by
  by_cases hk : w = w' ∧ sh = sh' ∧ sc = sc'
  · obtain ⟨h1, h2, h3⟩ := hk
    subst h1 h2 h3
    exact ⟨new, getShowSchedule_write_same s w sh sc slot new hg, hnew ⟨rfl, rfl, rfl⟩⟩
  · exact ⟨slot, by rw [getShowSchedule_write_other s w' sh' sc' new w sh sc hk]; exact hg, hn⟩

theorem existInSchedule_of_playing (s : scheduleAPIServer) (w sh : Int) (sc movieID : String)
    (slot : ShowSchedule) (p : Movie) (hg : getShowSchedule s w sh sc = .success slot)
    (hp : slot.Movie = some p) :
    existInSchedule s w sh sc movieID =
      if p.Id = movieID then (true, none) else (false, some (.errMovieScheduleExist movieID)) := by
  simp [existInSchedule, hg, hp]

theorem VoteUpMovie_preserves (s : scheduleAPIServer) (auth : Reply Unit)
    (voteReq : VoteUpMovieRequest) (w sh : Int) (sc : String) (slot : ShowSchedule)
    (hg : getShowSchedule s w sh sc = .success slot) (hn : NoDuplicateIds slot) :
    ∃ slot', getShowSchedule (VoteUpMovie s auth voteReq).1 w sh sc = .success slot' ∧
      NoDuplicateIds slot' := by
  unfold VoteUpMovie
  split
  · exact ⟨slot, hg, hn⟩
  · split
    · exact ⟨slot, hg, hn⟩
    · split
      · exact ⟨slot, hg, hn⟩
      · next showSchedule hshow =>
        split
        · exact ⟨slot, hg, hn⟩
        · next playing hplay =>
          split
          · apply invariant_write s w sh sc slot _ _ _ _ hg hn
            rintro ⟨h1, h2, h3⟩
            subst h1 h2 h3
            rw [hg] at hshow
            cases hshow
            rw [noDuplicateIds_iff slot playing hplay] at hn
            rw [noDuplicateIds_iff _ (incVotes playing) rfl]
            simpa [incVotes] using hn
          · split
            · apply invariant_write s w sh sc slot _ _ _ _ hg hn
              rintro ⟨h1, h2, h3⟩
              subst h1 h2 h3
              rw [hg] at hshow
              cases hshow
              rw [noDuplicateIds_iff slot playing hplay] at hn
              rw [noDuplicateIds_iff _ playing (by simpa using hplay)]
              simpa [voteFirst_ids] using hn
            · next playing' voted' idx hswap =>
              apply invariant_write s w sh sc slot _ _ _ _ hg hn
              rintro ⟨h1, h2, h3⟩
              subst h1 h2 h3
              rw [hg] at hshow
              cases hshow
              rw [noDuplicateIds_iff slot playing hplay] at hn
              rw [noDuplicateIds_iff _ playing' rfl]
              have hperm := (swapMovies_perm _ _ _ _ _ hswap).map Movie.Id
              simp only [List.map_cons, voteFirst_ids] at hperm
              exact hperm.nodup_iff.mpr hn

theorem CreateMovieDaySchedule_preserves (s : scheduleAPIServer) (auth : Reply Unit)
    (catalog : Reply Movie) (makeReq : CreateMovieDayScheduleRequest) (w sh : Int)
    (sc : String) (slot : ShowSchedule)
    (hg : getShowSchedule s w sh sc = .success slot) (hn : NoDuplicateIds slot) :
    ∃ slot', getShowSchedule (CreateMovieDaySchedule s auth catalog makeReq).1 w sh sc
        = .success slot' ∧ NoDuplicateIds slot' := by
  unfold CreateMovieDaySchedule
  split
  · exact ⟨slot, hg, hn⟩
  · split
    · exact ⟨slot, hg, hn⟩
    · split
      · exact ⟨slot, hg, hn⟩
      · next movieItem =>
        split
        · exact ⟨slot, hg, hn⟩
        · exact ⟨slot, hg, hn⟩
        · next hex =>
          split
          · exact ⟨slot, hg, hn⟩
          · apply invariant_write s w sh sc slot _ _ _ _ hg hn
            rintro ⟨h1, h2, h3⟩
            subst h1 h2 h3
            obtain ⟨p, hp⟩ := noDuplicateIds_playing slot hn
            rw [existInSchedule_of_playing s _ _ _ _ slot p hg hp] at hex
            split at hex <;> simp at hex

theorem AddVotedMovie_preserves (s : scheduleAPIServer) (auth : Reply Unit)
    (catalog : Reply Movie) (addReq : AddVotedMovieRequest) (w sh : Int)
    (sc : String) (slot : ShowSchedule)
    (hg : getShowSchedule s w sh sc = .success slot) (hn : NoDuplicateIds slot) :
    ∃ slot', getShowSchedule (AddVotedMovie s auth catalog addReq).1 w sh sc
        = .success slot' ∧ NoDuplicateIds slot' := by
  unfold AddVotedMovie
  split
  · exact ⟨slot, hg, hn⟩
  · split
    · exact ⟨slot, hg, hn⟩
    · split
      · exact ⟨slot, hg, hn⟩
      · next movieItem =>
        split
        · exact ⟨slot, hg, hn⟩
        · exact ⟨slot, hg, hn⟩
        · next hex =>
          split
          · exact ⟨slot, hg, hn⟩
          · split
            · exact ⟨slot, hg, hn⟩
            · apply invariant_write s w sh sc slot _ _ _ _ hg hn
              rintro ⟨h1, h2, h3⟩
              subst h1 h2 h3
              obtain ⟨p, hp⟩ := noDuplicateIds_playing slot hn
              rw [existInSchedule_of_playing s _ _ _ _ slot p hg hp] at hex
              split at hex <;> simp at hex

theorem DeleteMovieDaySchedule_preserves (s : scheduleAPIServer) (auth : Reply Unit)
    (delReq : DeleteMovieDayScheduleRequest) (w sh : Int)
    (sc : String) (slot : ShowSchedule)
    (hg : getShowSchedule s w sh sc = .success slot) (hn : NoDuplicateIds slot) :
    ∃ slot', getShowSchedule (DeleteMovieDaySchedule s auth delReq).1 w sh sc
        = .success slot' ∧ NoDuplicateIds slot' := by
  unfold DeleteMovieDaySchedule
  split
  · exact ⟨slot, hg, hn⟩
  · split
    · exact ⟨slot, hg, hn⟩
    · split
      · exact ⟨slot, hg, hn⟩
      · exact ⟨slot, hg, hn⟩
      · split
        · exact ⟨slot, hg, hn⟩
        · next showSchedule hshow =>
          split
          · exact ⟨slot, hg, hn⟩
          · next playing hplay =>
            split
            · apply invariant_write s w sh sc slot _ _ _ _ hg hn
              rintro ⟨h1, h2, h3⟩
              subst h1 h2 h3
              rw [hg] at hshow
              cases hshow
              rw [noDuplicateIds_iff slot playing hplay] at hn
              rw [noDuplicateIds_iff _ _ rfl]
              exact hn
            · next playing' voted' idx hswap =>
              have hperm := (swapMovies_perm _ _ _ _ _ hswap).map Movie.Id
              simp only [List.map_cons] at hperm
              split
              · apply invariant_write s w sh sc slot _ _ _ _ hg hn
                rintro ⟨h1, h2, h3⟩
                subst h1 h2 h3
                rw [hg] at hshow
                cases hshow
                rw [noDuplicateIds_iff slot playing hplay] at hn
                rw [noDuplicateIds_iff _ playing' rfl]
                have hnd : (playing'.Id :: voted'.map Movie.Id).Nodup :=
                  hperm.nodup_iff.mpr hn
                have hsub : (voted'.take idx ++ voted'.drop (idx + 1)).Sublist voted' := by
                  conv_rhs => rw [← List.take_append_drop idx voted']
                  exact List.Sublist.append (List.Sublist.refl _)
                    (List.drop_sublist_drop_left voted' (Nat.le_succ idx))
                exact hnd.sublist ((hsub.map Movie.Id).cons₂ _)
              · apply invariant_write s w sh sc slot _ _ _ _ hg hn
                rintro ⟨h1, h2, h3⟩
                subst h1 h2 h3
                rw [hg] at hshow
                cases hshow
                rw [noDuplicateIds_iff slot playing hplay] at hn
                rw [noDuplicateIds_iff _ playing' rfl]
                exact hperm.nodup_iff.mpr hn

theorem updateMovieInfo_preserves (s : scheduleAPIServer) (weekDay showNumber : Int)
    (screen : String) (movieItem : Movie) (w sh : Int)
    (sc : String) (slot : ShowSchedule)
    (hg : getShowSchedule s w sh sc = .success slot) (hn : NoDuplicateIds slot) :
    ∃ slot', getShowSchedule (updateMovieInfo s weekDay showNumber screen movieItem).1 w sh sc
        = .success slot' ∧ NoDuplicateIds slot' := by
  unfold updateMovieInfo
  split
  · exact ⟨slot, hg, hn⟩
  · next showSchedule hshow =>
    split
    · next hplay =>
      apply invariant_write s w sh sc slot _ _ _ _ hg hn
      rintro ⟨h1, h2, h3⟩
      subst h1 h2 h3
      rw [hg] at hshow
      cases hshow
      obtain ⟨p, hp⟩ := noDuplicateIds_playing slot hn
      rw [hp] at hplay
      cases hplay
    · next playing hplay =>
      apply invariant_write s w sh sc slot _ _ _ _ hg hn
      rintro ⟨h1, h2, h3⟩
      subst h1 h2 h3
      rw [hg] at hshow
      cases hshow
      rw [noDuplicateIds_iff slot playing hplay] at hn
      rw [noDuplicateIds_iff _ _ rfl]
      simp only [refreshMovie_ids, refreshMovie_id]
      exact hn

theorem writeShowSchedule_absent (s : scheduleAPIServer) (w sh : Int) (sc : String)
    (new : ShowSchedule) (e : Err) (h : getShowSchedule s w sh sc = .failure e) :
    writeShowSchedule s w sh sc new = s := by
  unfold getShowSchedule getDaySchedule at h
  cases hd : s.weeklySchedule.DaysSchedule w with
  | none => simp [writeShowSchedule, hd]
  | some day =>
    simp only [hd] at h
    cases hs : day.ScreensSchedule sc with
    | none => simp [writeShowSchedule, hd, hs]
    | some scr =>
      simp only [hs] at h
      cases hh : scr.ShowsSchedule sh with
      | none => simp [writeShowSchedule, hd, hs, hh]
      | some x => simp [hh] at h

theorem getShowSchedule_write_failure (s : scheduleAPIServer) (w sh : Int) (sc : String)
    (w' sh' : Int) (sc' : String) (new : ShowSchedule) (e : Err)
    (h : getShowSchedule s w sh sc = .failure e) :
    getShowSchedule (writeShowSchedule s w' sh' sc' new) w sh sc = .failure e := by
  by_cases hk : w = w' ∧ sh = sh' ∧ sc = sc'
  · obtain ⟨h1, h2, h3⟩ := hk
    subst h1 h2 h3
    rw [writeShowSchedule_absent s w sh sc new e h]
    exact h
  · rw [getShowSchedule_write_other s w' sh' sc' new w sh sc hk]
    exact h

theorem step_shape (s next : scheduleAPIServer) (h : Step s next) :
    next = s ∨ ∃ w sh sc new, next = writeShowSchedule s w sh sc new := by
  cases h with
  | create auth catalog makeReq =>
    unfold CreateMovieDaySchedule
    repeat' split
    all_goals first
      | exact Or.inl rfl
      | exact Or.inr ⟨_, _, _, _, rfl⟩
  | add auth catalog addReq =>
    unfold AddVotedMovie
    repeat' split
    all_goals first
      | exact Or.inl rfl
      | exact Or.inr ⟨_, _, _, _, rfl⟩
  | vote auth voteReq =>
    unfold VoteUpMovie
    repeat' split
    all_goals first
      | exact Or.inl rfl
      | exact Or.inr ⟨_, _, _, _, rfl⟩
  | delete auth delReq =>
    unfold DeleteMovieDaySchedule
    repeat' split
    all_goals first
      | exact Or.inl rfl
      | exact Or.inr ⟨_, _, _, _, rfl⟩
  | refresh weekDay showNumber screen movieItem =>
    unfold updateMovieInfo
    repeat' split
    all_goals first
      | exact Or.inl rfl
      | exact Or.inr ⟨_, _, _, _, rfl⟩

theorem step_preserves_failure (s next : scheduleAPIServer) (h : Step s next)
    (w sh : Int) (sc : String) (e : Err) (hg : getShowSchedule s w sh sc = .failure e) :
    getShowSchedule next w sh sc = .failure e := by
  rcases step_shape s next h with rfl | ⟨w', sh', sc', new, rfl⟩
  · exact hg
  · exact getShowSchedule_write_failure s w sh sc w' sh' sc' new e hg

theorem step_preserves_noDuplicateIds (s next : scheduleAPIServer) (h : Step s next)
    (w sh : Int) (sc : String) (slot : ShowSchedule)
    (hg : getShowSchedule s w sh sc = .success slot) (hn : NoDuplicateIds slot) :
    ∃ slot', getShowSchedule next w sh sc = .success slot' ∧ NoDuplicateIds slot' := by
  cases h with
  | create auth catalog makeReq =>
    exact CreateMovieDaySchedule_preserves s auth catalog makeReq w sh sc slot hg hn
  | add auth catalog addReq =>
    exact AddVotedMovie_preserves s auth catalog addReq w sh sc slot hg hn
  | vote auth voteReq => exact VoteUpMovie_preserves s auth voteReq w sh sc slot hg hn
  | delete auth delReq => exact DeleteMovieDaySchedule_preserves s auth delReq w sh sc slot hg hn
  | refresh weekDay showNumber screen movieItem =>
    exact updateMovieInfo_preserves s weekDay showNumber screen movieItem w sh sc slot hg hn

theorem mem_foldl_mapInsert {ν : Type} (f : String × Int → ν) (l : List (String × Int))
    (m : Int → Option ν) (k : Int) (v : ν)
    (h : l.foldl (fun shows sh => mapInsert shows sh.2 (f sh)) m k = some v) :
    m k = some v ∨ ∃ x ∈ l, v = f x := by
  induction l generalizing m with
  | nil => exact Or.inl h
  | cons x rest ih =>
    simp only [List.foldl_cons] at h
    rcases ih _ h with h1 | ⟨y, hy, hv⟩
    · rw [mapInsert_apply] at h1
      split at h1
      · right
        exact ⟨x, List.mem_cons_self _ _, by simpa using h1.symm⟩
      · exact Or.inl h1
    · exact Or.inr ⟨y, List.mem_cons_of_mem _ hy, hv⟩

theorem initialized_slot (w sh : Int) (sc : String) (slot : ShowSchedule)
    (h : getShowSchedule (initializeSchedule emptyServer) w sh sc = .success slot) :
    ∃ playtime, slot = initialShow playtime := by
  unfold getShowSchedule getDaySchedule at h
  cases hd : (initializeSchedule emptyServer).weeklySchedule.DaysSchedule w with
  | none => simp [hd] at h
  | some day =>
    simp only [hd] at h
    cases hs : day.ScreensSchedule sc with
    | none => simp [hs] at h
    | some scr =>
      simp only [hs] at h
      cases hh : scr.ShowsSchedule sh with
      | none => simp [hh] at h
      | some x =>
        simp only [hh, Reply.success.injEq] at h
        subst h
        simp only [initializeSchedule, emptyServer, weekDays, screensAvailable,
          List.foldl_cons, List.foldl_nil, mapInsert_apply] at hd
        have hday : day = { ScreensSchedule := (mapInsert mapEmpty "Screen 1"
            { ShowsSchedule := (showsPerDay.foldl
                (fun shows sh => mapInsert shows sh.2 (initialShow sh.1)) mapEmpty) }) } := by
          repeat' split at hd
          all_goals first
            | exact (Option.some.inj hd).symm
            | simp [mapEmpty] at hd
        subst hday
        simp only [mapInsert_apply] at hs
        split at hs
        · simp only [Option.some.injEq] at hs
          subst hs
          rcases mem_foldl_mapInsert (fun sh => initialShow sh.1) showsPerDay mapEmpty sh x hh
            with h1 | ⟨y, _, hy⟩
          · simp [mapEmpty] at h1
          · exact ⟨y.1, hy⟩
        · simp [mapEmpty] at hs

/-- C10: the no-duplicate invariant.  Every slot of the initialized store has a
playing movie and pairwise distinct ids; a slot with pairwise distinct ids (of
the playing movie and the waiting entries) still has pairwise distinct ids
after any store-mutating step (`CreateMovieDaySchedule`, `AddVotedMovie`,
`VoteUpMovie`, `DeleteMovieDaySchedule`, `updateMovieInfo`), whatever the
request and the collaborator replies; hence the ids are pairwise distinct in
every slot of every reachable state. -/
theorem C10_no_duplicate_ids_invariant :
    (∀ (w sh : Int) (sc : String) (slot : ShowSchedule),
      getShowSchedule (initializeSchedule emptyServer) w sh sc = .success slot →
      NoDuplicateIds slot) ∧
    (∀ (s next : scheduleAPIServer), Step s next →
      ∀ (w sh : Int) (sc : String) (slot : ShowSchedule),
        getShowSchedule s w sh sc = .success slot → NoDuplicateIds slot →
        ∃ slot', getShowSchedule next w sh sc = .success slot' ∧ NoDuplicateIds slot') ∧
    (∀ (s : scheduleAPIServer), Reachable s →
      ∀ (w sh : Int) (sc : String) (slot : ShowSchedule),
        getShowSchedule s w sh sc = .success slot → NoDuplicateIds slot) := by
  have hinit : ∀ (w sh : Int) (sc : String) (slot : ShowSchedule),
      getShowSchedule (initializeSchedule emptyServer) w sh sc = .success slot →
      NoDuplicateIds slot := by
    intro w sh sc slot h
    obtain ⟨playtime, rfl⟩ := initialized_slot w sh sc slot h
    simp [NoDuplicateIds, initialShow, slotMovies]
  refine ⟨hinit, step_preserves_noDuplicateIds, ?_⟩
  intro s hr
  induction hr with
  | init => exact hinit
  | step s next _ hstep ih =>
    intro w sh sc slot hg
    cases hprev : getShowSchedule s w sh sc with
    | failure e =>
      rw [step_preserves_failure s next hstep w sh sc e hprev] at hg
      cases hg
    | success old =>
      obtain ⟨slot', h1, h2⟩ :=
        step_preserves_noDuplicateIds s next hstep w sh sc old hprev (ih w sh sc old hprev)
      rw [hg] at h1
      cases h1
      exact h2

theorem C10_no_duplicate_ids_invariant_witness :
    NoDuplicateIds ⟨"11am", some ⟨"p", "P", 3⟩, [⟨"a", "A", 3⟩, ⟨"b", "B", 2⟩]⟩ ∧
    ∃ slot',
      getShowSchedule
        (VoteUpMovie (serverWith ⟨"11am", some ⟨"p", "P", 3⟩, [⟨"a", "A", 3⟩, ⟨"b", "B", 2⟩]⟩)
          (.success ()) ⟨"a", "u1", "Screen 1", 1, 1⟩).1 1 1 "Screen 1" = .success slot' ∧
      NoDuplicateIds slot' :=
  ⟨by decide,
   C10_no_duplicate_ids_invariant.2.1 _ _ (Step.vote _ _ _) 1 1 "Screen 1" _ rfl (by decide)⟩

theorem validateVoteUp_of_valid (voteReq : VoteUpMovieRequest) (h : ValidVoteUp voteReq) :
    validateVoteUp voteReq = none := by
  obtain ⟨h1, h2, h3, h4, h5, h6⟩ := h
  unfold validateVoteUp
  rw [if_neg h1, if_neg h2, if_neg h3, if_neg (by omega), if_neg (by omega)]

theorem VoteUpMovie_playing (s : scheduleAPIServer) (voteReq : VoteUpMovieRequest)
    (slot : ShowSchedule) (p : Movie) (hvalid : ValidVoteUp voteReq)
    (hg : getShowSchedule s voteReq.WeekDay voteReq.ShowNumber voteReq.Screen = .success slot)
    (hp : slot.Movie = some p) (hid : p.Id = voteReq.MovieId) :
    VoteUpMovie s (.success ()) voteReq =
      (writeShowSchedule s voteReq.WeekDay voteReq.ShowNumber voteReq.Screen
        { slot with Movie := some (incVotes p) }, .ok (incVotes p)) := by
  simp [VoteUpMovie, validateVoteUp_of_valid voteReq hvalid, hg, hp, hid]

theorem VoteUpMovie_waiting (s : scheduleAPIServer) (voteReq : VoteUpMovieRequest)
    (slot : ShowSchedule) (p p' : Movie) (voted' : List Movie) (i : Nat)
    (hvalid : ValidVoteUp voteReq)
    (hg : getShowSchedule s voteReq.WeekDay voteReq.ShowNumber voteReq.Screen = .success slot)
    (hp : slot.Movie = some p) (hid : p.Id ≠ voteReq.MovieId)
    (hswap : swapMovies p (voteFirst voteReq.MovieId slot.VotedMovies) = some (p', voted', i)) :
    VoteUpMovie s (.success ()) voteReq =
      (writeShowSchedule s voteReq.WeekDay voteReq.ShowNumber voteReq.Screen
        { slot with Movie := some p', VotedMovies := voted' }, .ok p') := by
  simp [VoteUpMovie, validateVoteUp_of_valid voteReq hvalid, hg, hp, hid, hswap]

theorem wrapInt32_of_range (x : Int) (hlo : -2147483648 ≤ x) (hhi : x ≤ 2147483647) :
    wrapInt32 x = x := by
  unfold wrapInt32
  omega

theorem incVotes_of_range (m : Movie) (hlo : -2147483648 ≤ m.CurrentVotes)
    (hhi : m.CurrentVotes < 2147483647) :
    incVotes m = { m with CurrentVotes := m.CurrentVotes + 1 } := by
  unfold incVotes
  rw [wrapInt32_of_range _ (by omega) (by omega)]

theorem voteFirst_eq_set (movieID : String) (l : List Movie) (k : Nat) (e : Movie)
    (hk : l[k]? = some e) (he : e.Id = movieID)
    (hfirst : ∀ (j : Nat) (m : Movie), j < k → l[j]? = some m → m.Id ≠ movieID) :
    voteFirst movieID l = l.set k (incVotes e) := by
  induction l generalizing k with
  | nil => simp at hk
  | cons x rest ih =>
    cases k with
    | zero =>
      simp at hk
      subst hk
      simp [voteFirst, he]
    | succ n =>
      have hx : x.Id ≠ movieID := hfirst 0 x (Nat.succ_pos n) (by simp)
      simp only [List.getElem?_cons_succ] at hk
      have := ih n hk (fun j m hj hm => hfirst (j + 1) m (Nat.succ_lt_succ hj) (by simpa using hm))
      simp [voteFirst, hx, this]

theorem voteFirst_ne_nil (movieID : String) (l : List Movie) (h : l ≠ []) :
    voteFirst movieID l ≠ [] := by
  intro hnil
  have := voteFirst_length movieID l
  rw [hnil] at this
  exact h (List.length_eq_zero.mp this.symm)

/-- C3 (as stated, refuted): with playing movie "p" (0 votes) and the waiting
entry "a" holding 2147483647 votes, `VoteUpMovie` for "a" leaves the entry with
-2147483648 votes (the `int32` increment wraps around), which is not its former
count plus 1. -/
theorem C3_voteUp_wraps_at_max_int32 :
    GetShowSchedule
        (VoteUpMovie (serverWith ⟨"11am", some ⟨"p", "P", 0⟩, [⟨"a", "A", 2147483647⟩]⟩)
          (.success ()) ⟨"a", "u1", "Screen 1", 1, 1⟩).1 ⟨1, "Screen 1", 1⟩
      = .ok ⟨"11am", some ⟨"p", "P", 0⟩, [⟨"a", "A", -2147483648⟩]⟩ ∧
    (-2147483648 : Int) ≠ 2147483647 + 1 := by
  constructor
  · rfl
  · decide

/-- C3 (amended): for a valid request on an existing slot with a playing movie,
whose movie id is not the playing movie's id and first matches the waiting
entry at index `k`, whose vote count is an `int32` value below 2147483647:
`VoteUpMovie` increases that entry's count by exactly 1; then, with `top` the
highest-voted waiting entry (the first one on ties, at index `i`), if `top` has
strictly more votes than the playing movie the two exchange places (the former
playing movie sits at index `i`), otherwise nothing is exchanged; the movie
returned is the playing movie of the slot after the call. -/
theorem C3_voteUp_waiting_entry (s : scheduleAPIServer) (voteReq : VoteUpMovieRequest)
    (slot : ShowSchedule) (p e : Movie) (k : Nat)
    (hvalid : ValidVoteUp voteReq)
    (hg : getShowSchedule s voteReq.WeekDay voteReq.ShowNumber voteReq.Screen = .success slot)
    (hp : slot.Movie = some p) (hpid : p.Id ≠ voteReq.MovieId)
    (hk : slot.VotedMovies[k]? = some e) (he : e.Id = voteReq.MovieId)
    (hfirst : ∀ (j : Nat) (m : Movie), j < k → slot.VotedMovies[j]? = some m →
      m.Id ≠ voteReq.MovieId)
    (hlo : -2147483648 ≤ e.CurrentVotes) (hhi : e.CurrentVotes < 2147483647) :
    ∃ i top,
      higherVotesIndex
          (slot.VotedMovies.set k { e with CurrentVotes := e.CurrentVotes + 1 }) = some i ∧
      (slot.VotedMovies.set k { e with CurrentVotes := e.CurrentVotes + 1 })[i]? = some top ∧
      (∀ m ∈ slot.VotedMovies.set k { e with CurrentVotes := e.CurrentVotes + 1 },
        m.CurrentVotes ≤ top.CurrentVotes) ∧
      (∀ (j : Nat) (m : Movie), j < i →
        (slot.VotedMovies.set k { e with CurrentVotes := e.CurrentVotes + 1 })[j]? = some m →
        m.CurrentVotes < top.CurrentVotes) ∧
      (p.CurrentVotes < top.CurrentVotes →
        (VoteUpMovie s (.success ()) voteReq).2 = .ok top ∧
        getShowSchedule (VoteUpMovie s (.success ()) voteReq).1
            voteReq.WeekDay voteReq.ShowNumber voteReq.Screen
          = .success { slot with
              Movie := some top,
              VotedMovies :=
                (slot.VotedMovies.set k { e with CurrentVotes := e.CurrentVotes + 1 }).set i p }) ∧
      (¬ p.CurrentVotes < top.CurrentVotes →
        (VoteUpMovie s (.success ()) voteReq).2 = .ok p ∧
        getShowSchedule (VoteUpMovie s (.success ()) voteReq).1
            voteReq.WeekDay voteReq.ShowNumber voteReq.Screen
          = .success { slot with
              VotedMovies :=
                slot.VotedMovies.set k { e with CurrentVotes := e.CurrentVotes + 1 } }) := by
  have hvf : voteFirst voteReq.MovieId slot.VotedMovies
      = slot.VotedMovies.set k { e with CurrentVotes := e.CurrentVotes + 1 } := by
    rw [voteFirst_eq_set voteReq.MovieId slot.VotedMovies k e hk he hfirst,
      incVotes_of_range e hlo hhi]
  have hne : slot.VotedMovies.set k { e with CurrentVotes := e.CurrentVotes + 1 } ≠ [] := by
    intro h
    have hlen := congrArg List.length h
    have hklt : k < slot.VotedMovies.length := (List.getElem?_eq_some_iff.mp hk).1
    simp only [List.length_set, List.length_nil] at hlen
    omega
  obtain ⟨i, top, h1, h2, h3, h4⟩ := higherVotesIndex_spec _ hne
  refine ⟨i, top, h1, h2, ?_, h4, ?_, ?_⟩
  · intro m hm
    obtain ⟨j, hj⟩ := List.getElem?_of_mem hm
    exact h3 j m hj
  · intro hc
    have hswap := swapMovies_eq p _ i top h1 h2
    rw [if_pos hc, ← hvf] at hswap
    rw [VoteUpMovie_waiting s voteReq slot p _ _ _ hvalid hg hp hpid hswap]
    refine ⟨rfl, ?_⟩
    rw [hvf]
    exact getShowSchedule_write_same s _ _ _ slot _ hg
  · intro hc
    have hswap := swapMovies_eq p _ i top h1 h2
    rw [if_neg hc, ← hvf] at hswap
    rw [VoteUpMovie_waiting s voteReq slot p _ _ _ hvalid hg hp hpid hswap]
    refine ⟨rfl, ?_⟩
    rw [hvf]
    have := getShowSchedule_write_same s voteReq.WeekDay voteReq.ShowNumber voteReq.Screen slot
      { slot with Movie := some p,
                  VotedMovies := slot.VotedMovies.set k
                    { e with CurrentVotes := e.CurrentVotes + 1 } } hg
    rw [this, ← hp]
theorem C3_voteUp_waiting_entry_witness :
    ValidVoteUp (voteFor "a") ∧
    ∃ i top,
      higherVotesIndex
          (scenarioSlot.VotedMovies.set 0 { (⟨"a", "A", 5⟩ : Movie) with CurrentVotes := 5 + 1 })
        = some i ∧
      (scenarioSlot.VotedMovies.set 0
          { (⟨"a", "A", 5⟩ : Movie) with CurrentVotes := 5 + 1 })[i]? = some top ∧
      (∀ m ∈ scenarioSlot.VotedMovies.set 0
          { (⟨"a", "A", 5⟩ : Movie) with CurrentVotes := 5 + 1 },
        m.CurrentVotes ≤ top.CurrentVotes) ∧
      (∀ (j : Nat) (m : Movie), j < i →
        (scenarioSlot.VotedMovies.set 0
          { (⟨"a", "A", 5⟩ : Movie) with CurrentVotes := 5 + 1 })[j]? = some m →
        m.CurrentVotes < top.CurrentVotes) ∧
      ((⟨"p", "P", 3⟩ : Movie).CurrentVotes < top.CurrentVotes →
        (VoteUpMovie (serverWith scenarioSlot) (.success ()) (voteFor "a")).2 = .ok top ∧
        getShowSchedule (VoteUpMovie (serverWith scenarioSlot) (.success ()) (voteFor "a")).1
            (voteFor "a").WeekDay (voteFor "a").ShowNumber (voteFor "a").Screen
          = .success { scenarioSlot with
              Movie := some top,
              VotedMovies :=
                (scenarioSlot.VotedMovies.set 0
                  { (⟨"a", "A", 5⟩ : Movie) with CurrentVotes := 5 + 1 }).set i ⟨"p", "P", 3⟩ }) ∧
      (¬ (⟨"p", "P", 3⟩ : Movie).CurrentVotes < top.CurrentVotes →
        (VoteUpMovie (serverWith scenarioSlot) (.success ()) (voteFor "a")).2
          = .ok ⟨"p", "P", 3⟩ ∧
        getShowSchedule (VoteUpMovie (serverWith scenarioSlot) (.success ()) (voteFor "a")).1
            (voteFor "a").WeekDay (voteFor "a").ShowNumber (voteFor "a").Screen
          = .success { scenarioSlot with
              VotedMovies :=
                scenarioSlot.VotedMovies.set 0
                  { (⟨"a", "A", 5⟩ : Movie) with CurrentVotes := 5 + 1 } }) :=
  ⟨by decide,
   C3_voteUp_waiting_entry (serverWith scenarioSlot) (voteFor "a") scenarioSlot
     ⟨"p", "P", 3⟩ ⟨"a", "A", 5⟩ 0 (by decide) rfl rfl (by decide) rfl rfl
     (by intro j m hj; omega) (by decide) (by decide)⟩

theorem swapMovies_playing_max (playing : Movie) (voted : List Movie) (playing' : Movie)
    (voted' : List Movie) (i : Nat)
    (h : swapMovies playing voted = some (playing', voted', i)) :
    ∀ m ∈ voted', m.CurrentVotes ≤ playing'.CurrentVotes := by
  have hne : voted ≠ [] := by
    intro hnil
    subst hnil
    simp [swapMovies, higherVotesIndex] at h
  obtain ⟨idx, top, h1, h2, h3, _⟩ := higherVotesIndex_spec voted hne
  rw [swapMovies_eq playing voted idx top h1 h2] at h
  by_cases hc : playing.CurrentVotes < top.CurrentVotes
  · simp only [if_pos hc, Option.some.injEq, Prod.mk.injEq] at h
    obtain ⟨hp, hv, _⟩ := h
    subst hp hv
    intro m hm
    rcases List.mem_or_eq_of_mem_set hm with hm' | rfl
    · obtain ⟨j, hj⟩ := List.getElem?_of_mem hm'
      exact h3 j m hj
    · exact le_of_lt hc
  · simp only [if_neg hc, Option.some.injEq, Prod.mk.injEq] at h
    obtain ⟨hp, hv, _⟩ := h
    subst hp hv
    intro m hm
    obtain ⟨j, hj⟩ := List.getElem?_of_mem hm
    exact le_trans (h3 j m hj) (not_lt.mp hc)

theorem addVotes_id (movieID : String) (n : Nat) (m : Movie) :
    (addVotes movieID n m).Id = m.Id := by
  unfold addVotes
  split <;> rfl

theorem map_addVotes_of_absent (movieID : String) (n : Nat) (l : List Movie)
    (h : ∀ m ∈ l, m.Id ≠ movieID) : l.map (addVotes movieID n) = l := by
  induction l with
  | nil => rfl
  | cons x rest ih =>
    have hx : x.Id ≠ movieID := h x (List.mem_cons_self _ _)
    rw [List.map_cons, ih (fun m hm => h m (List.mem_cons_of_mem _ hm))]
    simp [addVotes, hx]

theorem addVotes_addVotes (movieID : String) (a b : Nat) (m : Movie) :
    addVotes movieID b (addVotes movieID a m) = addVotes movieID (a + b) m := by
  unfold addVotes
  by_cases h : m.Id = movieID
  · simp only [if_pos h]
    simp only [Nat.cast_add, Movie.mk.injEq, true_and]
    omega
  · simp only [if_neg h]

theorem voteFirst_eq_map (movieID : String) (l : List Movie)
    (hnd : (l.map Movie.Id).Nodup)
    (hr : ∀ m ∈ l, m.Id = movieID →
      -2147483648 ≤ m.CurrentVotes ∧ m.CurrentVotes < 2147483647) :
    voteFirst movieID l = l.map (addVotes movieID 1) := by
  induction l with
  | nil => rfl
  | cons x rest ih =>
    simp only [List.map_cons, List.nodup_cons] at hnd
    unfold voteFirst
    by_cases hx : x.Id = movieID
    · have hrest : ∀ m ∈ rest, m.Id ≠ movieID := by
        intro m hm heq
        exact hnd.1 (List.mem_map.mpr ⟨m, hm, by rw [heq, hx]⟩)
      have hxr := hr x (List.mem_cons_self _ _) hx
      rw [if_pos hx, List.map_cons, map_addVotes_of_absent movieID 1 rest hrest,
        incVotes_of_range x hxr.1 hxr.2]
      simp [addVotes, hx]
    · rw [if_neg hx, List.map_cons,
        ih hnd.2 (fun m hm => hr m (List.mem_cons_of_mem _ hm))]
      simp [addVotes, hx]

theorem voteUp_step (s : scheduleAPIServer) (voteReq : VoteUpMovieRequest)
    (slot : ShowSchedule) (hvalid : ValidVoteUp voteReq)
    (hg : getShowSchedule s voteReq.WeekDay voteReq.ShowNumber voteReq.Screen = .success slot)
    (hn : NoDuplicateIds slot)
    (hmem : ∃ m ∈ slotMovies slot, m.Id = voteReq.MovieId)
    (hr : ∀ m ∈ slotMovies slot, m.Id = voteReq.MovieId →
      -2147483648 ≤ m.CurrentVotes ∧ m.CurrentVotes < 2147483647) :
    ∃ s' p' slot', VoteUpMovie s (.success ()) voteReq = (s', .ok p') ∧
      getShowSchedule s' voteReq.WeekDay voteReq.ShowNumber voteReq.Screen = .success slot' ∧
      (slotMovies slot').Perm ((slotMovies slot).map (addVotes voteReq.MovieId 1)) := by
  obtain ⟨p, hp⟩ := noDuplicateIds_playing slot hn
  have hnd := (noDuplicateIds_iff slot p hp).mp hn
  have hsm : slotMovies slot = p :: slot.VotedMovies := by simp [slotMovies, hp]
  rw [hsm] at hmem hr ⊢
  simp only [List.nodup_cons, List.mem_map, not_exists, not_and] at hnd
  by_cases hid : p.Id = voteReq.MovieId
  · refine ⟨_, _, _, VoteUpMovie_playing s voteReq slot p hvalid hg hp hid,
      getShowSchedule_write_same s _ _ _ slot _ hg, ?_⟩
    have habs : ∀ m ∈ slot.VotedMovies, m.Id ≠ voteReq.MovieId := by
      intro m hm heq
      exact hnd.1 m hm (by rw [heq, hid])
    have hpr := hr p (List.mem_cons_self _ _) hid
    simp only [slotMovies, Option.toList, List.singleton_append, List.map_cons]
    rw [map_addVotes_of_absent _ 1 _ habs, incVotes_of_range p hpr.1 hpr.2]
    simp [addVotes, hid]
  · have hvne : slot.VotedMovies ≠ [] := by
      obtain ⟨m, hm, hmid⟩ := hmem
      rcases List.mem_cons.mp hm with rfl | hm'
      · exact absurd hmid hid
      · exact List.ne_nil_of_mem hm'
    have hvf := voteFirst_eq_map voteReq.MovieId slot.VotedMovies hnd.2
      (fun m hm => hr m (List.mem_cons_of_mem _ hm))
    have hne' := voteFirst_ne_nil voteReq.MovieId slot.VotedMovies hvne
    obtain ⟨i, top, h1, h2, _, _⟩ := higherVotesIndex_spec _ hne'
    have hswap := swapMovies_eq p _ i top h1 h2
    generalize hres : (if p.CurrentVotes < top.CurrentVotes then
        (top, (voteFirst voteReq.MovieId slot.VotedMovies).set i p, i)
      else (p, voteFirst voteReq.MovieId slot.VotedMovies, i)) = res at hswap
    obtain ⟨p', voted', idx⟩ := res
    refine ⟨_, _, _, VoteUpMovie_waiting s voteReq slot p p' voted' idx hvalid hg hp hid hswap,
      getShowSchedule_write_same s _ _ _ slot _ hg, ?_⟩
    have hperm := swapMovies_perm _ _ _ _ _ hswap
    rw [hvf] at hperm
    simp only [slotMovies, Option.toList, List.singleton_append, List.map_cons]
    have hpp : addVotes voteReq.MovieId 1 p = p := by simp [addVotes, hid]
    rw [hpp]
    exact hperm

theorem addVotes_zero (movieID : String) (m : Movie) : addVotes movieID 0 m = m := by
  unfold addVotes
  split <;> simp

theorem voteUpRepeat_perm (voteReq : VoteUpMovieRequest) (hvalid : ValidVoteUp voteReq) :
    ∀ (N : Nat) (s : scheduleAPIServer) (slot : ShowSchedule),
      getShowSchedule s voteReq.WeekDay voteReq.ShowNumber voteReq.Screen = .success slot →
      NoDuplicateIds slot →
      (∃ m ∈ slotMovies slot, m.Id = voteReq.MovieId) →
      (∀ m ∈ slotMovies slot, m.Id = voteReq.MovieId →
        -2147483648 ≤ m.CurrentVotes ∧ m.CurrentVotes + N ≤ 2147483647) →
      ∃ s' slot', voteUpRepeat voteReq N s = some s' ∧
        getShowSchedule s' voteReq.WeekDay voteReq.ShowNumber voteReq.Screen
          = .success slot' ∧
        NoDuplicateIds slot' ∧
        (slotMovies slot').Perm ((slotMovies slot).map (addVotes voteReq.MovieId N)) := by
  intro N
  induction N with
  | zero =>
    intro s slot hg hn _ _
    refine ⟨s, slot, rfl, hg, hn, ?_⟩
    have : (slotMovies slot).map (addVotes voteReq.MovieId 0) = slotMovies slot := by
      rw [show addVotes voteReq.MovieId 0 = id from funext (addVotes_zero _)]
      exact List.map_id _
    rw [this]
  | succ N ih =>
    intro s slot hg hn hmem hr
    have hr1 : ∀ m ∈ slotMovies slot, m.Id = voteReq.MovieId →
        -2147483648 ≤ m.CurrentVotes ∧ m.CurrentVotes < 2147483647 := by
      intro m hm hid
      have := hr m hm hid
      push_cast at this
      omega
    obtain ⟨s1, p1, slot1, hstep, hg1, hperm1⟩ :=
      voteUp_step s voteReq slot hvalid hg hn hmem hr1
    have hn1 : NoDuplicateIds slot1 := by
      obtain ⟨x, hx1, hx2⟩ :=
        VoteUpMovie_preserves s (.success ()) voteReq _ _ _ slot hg hn
      rw [hstep] at hx1
      simp only at hx1
      rw [hg1] at hx1
      cases hx1
      exact hx2
    have hmem1 : ∃ m ∈ slotMovies slot1, m.Id = voteReq.MovieId := by
      obtain ⟨m, hm, hid⟩ := hmem
      refine ⟨addVotes voteReq.MovieId 1 m, ?_, by rw [addVotes_id]; exact hid⟩
      exact hperm1.mem_iff.mpr (List.mem_map_of_mem _ hm)
    have hr2 : ∀ m ∈ slotMovies slot1, m.Id = voteReq.MovieId →
        -2147483648 ≤ m.CurrentVotes ∧ m.CurrentVotes + N ≤ 2147483647 := by
      intro m hm hid
      obtain ⟨y, hy, rfl⟩ := List.mem_map.mp (hperm1.mem_iff.mp hm)
      rw [addVotes_id] at hid
      have := hr y hy hid
      simp only [addVotes, if_pos hid]
      push_cast at this ⊢
      omega
    obtain ⟨s', slot', hrep, hg', hn', hperm'⟩ := ih s1 slot1 hg1 hn1 hmem1 hr2
    refine ⟨s', slot', ?_, hg', hn', ?_⟩
    · simp only [voteUpRepeat, hstep]
      exact hrep
    · refine hperm'.trans ?_
      have := hperm1.map (addVotes voteReq.MovieId N)
      refine this.trans ?_
      rw [List.map_map]
      have hfun : addVotes voteReq.MovieId N ∘ addVotes voteReq.MovieId 1
          = addVotes voteReq.MovieId (N + 1) := by
        funext m
        simp only [Function.comp, addVotes_addVotes, Nat.add_comm 1 N]
      rw [hfun]

/-- C5: for a valid request naming a movie `m` present in a slot whose ids are
pairwise distinct, and `N` such that the `int32` count of `m` does not
overflow: `N` consecutive `VoteUpMovie` calls for `m` all succeed; afterwards
the movies of the slot are, up to their order, the former movies with the
count of `m` increased by exactly `N`: the entry with id `m`, wherever it sits,
has its initial count plus `N`, and every other movie of the slot is unchanged. -/
theorem C5_repeated_votes_add_exactly_N (s : scheduleAPIServer)
    (voteReq : VoteUpMovieRequest) (slot : ShowSchedule) (N : Nat)
    (hvalid : ValidVoteUp voteReq)
    (hg : getShowSchedule s voteReq.WeekDay voteReq.ShowNumber voteReq.Screen = .success slot)
    (hn : NoDuplicateIds slot)
    (hmem : ∃ m ∈ slotMovies slot, m.Id = voteReq.MovieId)
    (hr : ∀ m ∈ slotMovies slot, m.Id = voteReq.MovieId →
      -2147483648 ≤ m.CurrentVotes ∧ m.CurrentVotes + N ≤ 2147483647) :
    ∃ s' slot', voteUpRepeat voteReq N s = some s' ∧
      getShowSchedule s' voteReq.WeekDay voteReq.ShowNumber voteReq.Screen = .success slot' ∧
      NoDuplicateIds slot' ∧
      (slotMovies slot').Perm ((slotMovies slot).map (addVotes voteReq.MovieId N)) ∧
      (∀ x ∈ slotMovies slot', x.Id = voteReq.MovieId →
        ∃ y ∈ slotMovies slot, y.Id = voteReq.MovieId ∧
          x = { y with CurrentVotes := y.CurrentVotes + N }) ∧
      (∀ x : Movie, x.Id ≠ voteReq.MovieId →
        (x ∈ slotMovies slot' ↔ x ∈ slotMovies slot)) := by
  obtain ⟨s', slot', h1, h2, h3, h4⟩ := voteUpRepeat_perm voteReq hvalid N s slot hg hn hmem hr
  refine ⟨s', slot', h1, h2, h3, h4, ?_, ?_⟩
  · intro x hx hid
    obtain ⟨y, hy, rfl⟩ := List.mem_map.mp (h4.mem_iff.mp hx)
    rw [addVotes_id] at hid
    exact ⟨y, hy, hid, by simp [addVotes, hid]⟩
  · intro x hx
    rw [h4.mem_iff, List.mem_map]
    constructor
    · rintro ⟨y, hy, rfl⟩
      rw [addVotes_id] at hx
      simpa [addVotes, hx] using hy
    · intro hxm
      exact ⟨x, hxm, by simp [addVotes, hx]⟩
theorem C5_repeated_votes_add_exactly_N_witness :
    ValidVoteUp (voteFor "b") ∧ NoDuplicateIds scenarioSlot ∧
    (∃ m ∈ slotMovies scenarioSlot, m.Id = (voteFor "b").MovieId) ∧
    ∃ s' slot', voteUpRepeat (voteFor "b") 4 (serverWith scenarioSlot) = some s' ∧
      getShowSchedule s' (voteFor "b").WeekDay (voteFor "b").ShowNumber (voteFor "b").Screen
        = .success slot' ∧
      NoDuplicateIds slot' ∧
      (slotMovies slot').Perm
        ((slotMovies scenarioSlot).map (addVotes (voteFor "b").MovieId 4)) ∧
      (∀ x ∈ slotMovies slot', x.Id = (voteFor "b").MovieId →
        ∃ y ∈ slotMovies scenarioSlot, y.Id = (voteFor "b").MovieId ∧
          x = { y with CurrentVotes := y.CurrentVotes + (4 : Nat) }) ∧
      (∀ x : Movie, x.Id ≠ (voteFor "b").MovieId →
        (x ∈ slotMovies slot' ↔ x ∈ slotMovies scenarioSlot)) :=
  ⟨by decide, by decide, by decide,
   C5_repeated_votes_add_exactly_N (serverWith scenarioSlot) (voteFor "b") scenarioSlot 4
     (by decide) rfl (by decide) (by decide) (by decide)⟩

theorem CreateMovieDaySchedule_fails_of_playing (s : scheduleAPIServer) (auth : Reply Unit)
    (catalog : Reply Movie) (makeReq : CreateMovieDayScheduleRequest) (slot : ShowSchedule)
    (p : Movie)
    (hg : getShowSchedule s makeReq.WeekDay makeReq.Show makeReq.Screen = .success slot)
    (hp : slot.Movie = some p) :
    (CreateMovieDaySchedule s auth catalog makeReq).1 = s ∧
      ∃ e, (CreateMovieDaySchedule s auth catalog makeReq).2 = .error e := by
  unfold CreateMovieDaySchedule
  split
  · exact ⟨rfl, _, rfl⟩
  · split
    · exact ⟨rfl, _, rfl⟩
    · split
      · exact ⟨rfl, _, rfl⟩
      · split
        · exact ⟨rfl, _, rfl⟩
        · exact ⟨rfl, _, rfl⟩
        · next hex =>
          rw [existInSchedule_of_playing s _ _ _ _ slot p hg hp] at hex
          split at hex <;> simp at hex

theorem AddVotedMovie_fails_of_playing (s : scheduleAPIServer) (auth : Reply Unit)
    (catalog : Reply Movie) (addReq : AddVotedMovieRequest) (slot : ShowSchedule)
    (p : Movie)
    (hg : getShowSchedule s addReq.WeekDay addReq.Show addReq.Screen = .success slot)
    (hp : slot.Movie = some p) :
    (AddVotedMovie s auth catalog addReq).1 = s ∧
      ∃ e, (AddVotedMovie s auth catalog addReq).2 = .error e := by
  unfold AddVotedMovie
  split
  · exact ⟨rfl, _, rfl⟩
  · split
    · exact ⟨rfl, _, rfl⟩
    · split
      · exact ⟨rfl, _, rfl⟩
      · split
        · exact ⟨rfl, _, rfl⟩
        · exact ⟨rfl, _, rfl⟩
        · next hex =>
          rw [existInSchedule_of_playing s _ _ _ _ slot p hg hp] at hex
          split at hex <;> simp at hex

theorem AddVotedMovie_valid_of_playing (s : scheduleAPIServer) (movieItem : Movie)
    (addReq : AddVotedMovieRequest) (slot : ShowSchedule) (p : Movie)
    (hvalid : ValidAdd addReq)
    (hg : getShowSchedule s addReq.WeekDay addReq.Show addReq.Screen = .success slot)
    (hp : slot.Movie = some p) :
    AddVotedMovie s (.success ()) (.success movieItem) addReq =
      (s, .error (.errMovieScheduleExist movieItem.Id)) := by
  obtain ⟨h1, h2, h3, h4, h5⟩ := hvalid
  have hv : validateAdd addReq = none := by
    unfold validateAdd
    rw [if_neg (by omega), if_neg h3, if_neg (by omega), if_neg h5]
  by_cases hid : p.Id = movieItem.Id <;>
    simp [AddVotedMovie, hv, existInSchedule_of_playing s _ _ _ _ slot p hg hp, hid]

theorem CreateMovieDaySchedule_valid_of_playing (s : scheduleAPIServer) (movieItem : Movie)
    (makeReq : CreateMovieDayScheduleRequest) (slot : ShowSchedule) (p : Movie)
    (hvalid : ValidCreate makeReq)
    (hg : getShowSchedule s makeReq.WeekDay makeReq.Show makeReq.Screen = .success slot)
    (hp : slot.Movie = some p) :
    CreateMovieDaySchedule s (.success ()) (.success movieItem) makeReq =
      (s, .error (.errMovieScheduleExist movieItem.Id)) := by
  obtain ⟨h1, h2, h3, h4, h5⟩ := hvalid
  have hv : validateCreate makeReq = none := by
    unfold validateCreate
    rw [if_neg (by omega), if_neg h3, if_neg h4, if_neg (by omega)]
  by_cases hid : p.Id = movieItem.Id <;>
    simp [CreateMovieDaySchedule, hv, existInSchedule_of_playing s _ _ _ _ slot p hg hp, hid]

theorem DeleteMovieDaySchedule_absent_of_playing (s : scheduleAPIServer)
    (delReq : DeleteMovieDayScheduleRequest) (slot : ShowSchedule) (p : Movie)
    (hvalid : ValidDelete delReq)
    (hg : getShowSchedule s delReq.WeekDay delReq.Show delReq.Screen = .success slot)
    (hp : slot.Movie = some p) (hid : p.Id ≠ delReq.MovieId) :
    DeleteMovieDaySchedule s (.success ()) delReq =
      (s, .error (.errMovieScheduleExist delReq.MovieId)) := by
  obtain ⟨h1, h2, h3, h4, h5⟩ := hvalid
  have hv : validateDelete delReq = none := by
    unfold validateDelete
    rw [if_neg (by omega), if_neg h3, if_neg (by omega), if_neg h5]
  simp [DeleteMovieDaySchedule, hv, existInSchedule_of_playing s _ _ _ _ slot p hg hp, hid]

theorem validateDelete_of_valid (delReq : DeleteMovieDayScheduleRequest)
    (h : ValidDelete delReq) : validateDelete delReq = none := by
  obtain ⟨h1, h2, h3, h4, h5⟩ := h
  unfold validateDelete
  rw [if_neg (by omega), if_neg h3, if_neg (by omega), if_neg h5]

theorem take_append_drop_set (l : List Movie) (i : Nat) (x : Movie) :
    (l.set i x).take i ++ (l.set i x).drop (i + 1) = l.take i ++ l.drop (i + 1) := by
  induction l generalizing i with
  | nil => simp
  | cons y rest ih =>
    cases i with
    | zero => simp
    | succ n => simpa using ih n

theorem DeleteMovieDaySchedule_playing (s : scheduleAPIServer)
    (delReq : DeleteMovieDayScheduleRequest) (slot : ShowSchedule) (p : Movie)
    (hvalid : ValidDelete delReq)
    (hg : getShowSchedule s delReq.WeekDay delReq.Show delReq.Screen = .success slot)
    (hp : slot.Movie = some p) (hid : p.Id = delReq.MovieId)
    (hne : slot.VotedMovies ≠ []) :
    ∃ i top, higherVotesIndex slot.VotedMovies = some i ∧
      slot.VotedMovies[i]? = some top ∧
      DeleteMovieDaySchedule s (.success ()) delReq =
        (writeShowSchedule s delReq.WeekDay delReq.Show delReq.Screen
          { slot with
            Movie := some (if -1 < top.CurrentVotes then top
              else { p with CurrentVotes := -1 }),
            VotedMovies := slot.VotedMovies.take i ++ slot.VotedMovies.drop (i + 1) },
         .ok ()) := by
  obtain ⟨i, top, h1, h2, _, _⟩ := higherVotesIndex_spec slot.VotedMovies hne
  have hlt : i < slot.VotedMovies.length := (List.getElem?_eq_some_iff.mp h2).1
  refine ⟨i, top, h1, h2, ?_⟩
  have hswap := swapMovies_eq { p with CurrentVotes := -1 } slot.VotedMovies i top h1 h2
  by_cases hc : -1 < top.CurrentVotes
  · have hc' : ({ p with CurrentVotes := -1 } : Movie).CurrentVotes < top.CurrentVotes := hc
    rw [if_pos hc'] at hswap
    simp only [hid] at hswap
    simp [DeleteMovieDaySchedule, validateDelete_of_valid delReq hvalid,
      existInSchedule_of_playing s _ _ _ _ slot p hg hp, hid, hg, hp, hswap, hc,
      take_append_drop_set, Nat.succ_le_of_lt hlt]
  · have hc' : ¬ ({ p with CurrentVotes := -1 } : Movie).CurrentVotes < top.CurrentVotes := hc
    rw [if_neg hc'] at hswap
    simp only [hid] at hswap
    simp [DeleteMovieDaySchedule, validateDelete_of_valid delReq hvalid,
      existInSchedule_of_playing s _ _ _ _ slot p hg hp, hid, hg, hp, hswap, hc,
      Nat.succ_le_of_lt hlt]

theorem property_write (P : ShowSchedule → Prop) (s : scheduleAPIServer) (w sh : Int)
    (sc : String) (slot : ShowSchedule) (w' sh' : Int) (sc' : String) (new : ShowSchedule)
    (hg : getShowSchedule s w sh sc = .success slot) (hp : P slot)
    (hnew : (w = w' ∧ sh = sh' ∧ sc = sc') → P new) :
    ∃ slot', getShowSchedule (writeShowSchedule s w' sh' sc' new) w sh sc = .success slot' ∧
      P slot' := by
  by_cases hk : w = w' ∧ sh = sh' ∧ sc = sc'
  · obtain ⟨h1, h2, h3⟩ := hk
    subst h1 h2 h3
    exact ⟨new, getShowSchedule_write_same s w sh sc slot new hg, hnew ⟨rfl, rfl, rfl⟩⟩
  · exact ⟨slot, by rw [getShowSchedule_write_other s w' sh' sc' new w sh sc hk]; exact hg, hp⟩

theorem VoteUpMovie_preserves_bound (s : scheduleAPIServer) (auth : Reply Unit)
    (voteReq : VoteUpMovieRequest) (w sh : Int) (sc : String) (slot : ShowSchedule)
    (hg : getShowSchedule s w sh sc = .success slot) (hb : WaitingListBounded slot) :
    ∃ slot', getShowSchedule (VoteUpMovie s auth voteReq).1 w sh sc = .success slot' ∧
      WaitingListBounded slot' := by
  unfold VoteUpMovie
  split
  · exact ⟨slot, hg, hb⟩
  · split
    · exact ⟨slot, hg, hb⟩
    · split
      · exact ⟨slot, hg, hb⟩
      · next showSchedule hshow =>
        split
        · exact ⟨slot, hg, hb⟩
        · next playing hplay =>
          split
          · apply property_write WaitingListBounded s w sh sc slot _ _ _ _ hg hb
            rintro ⟨h1, h2, h3⟩
            subst h1 h2 h3
            rw [hg] at hshow
            cases hshow
            exact hb
          · split
            · apply property_write WaitingListBounded s w sh sc slot _ _ _ _ hg hb
              rintro ⟨h1, h2, h3⟩
              subst h1 h2 h3
              rw [hg] at hshow
              cases hshow
              simp only [WaitingListBounded, voteFirst_length]
              exact hb
            · next playing' voted' idx hswap =>
              apply property_write WaitingListBounded s w sh sc slot _ _ _ _ hg hb
              rintro ⟨h1, h2, h3⟩
              subst h1 h2 h3
              rw [hg] at hshow
              cases hshow
              have := (swapMovies_index _ _ _ _ _ hswap).2.1
              simp only [WaitingListBounded, this, voteFirst_length]
              exact hb

theorem DeleteMovieDaySchedule_preserves_bound (s : scheduleAPIServer) (auth : Reply Unit)
    (delReq : DeleteMovieDayScheduleRequest) (w sh : Int) (sc : String) (slot : ShowSchedule)
    (hg : getShowSchedule s w sh sc = .success slot) (hb : WaitingListBounded slot) :
    ∃ slot', getShowSchedule (DeleteMovieDaySchedule s auth delReq).1 w sh sc
        = .success slot' ∧ WaitingListBounded slot' := by
  unfold DeleteMovieDaySchedule
  split
  · exact ⟨slot, hg, hb⟩
  · split
    · exact ⟨slot, hg, hb⟩
    · split
      · exact ⟨slot, hg, hb⟩
      · exact ⟨slot, hg, hb⟩
      · split
        · exact ⟨slot, hg, hb⟩
        · next showSchedule hshow =>
          split
          · exact ⟨slot, hg, hb⟩
          · next playing hplay =>
            split
            · apply property_write WaitingListBounded s w sh sc slot _ _ _ _ hg hb
              rintro ⟨h1, h2, h3⟩
              subst h1 h2 h3
              rw [hg] at hshow
              cases hshow
              exact hb
            · next playing' voted' idx hswap =>
              have hlen := (swapMovies_index _ _ _ _ _ hswap).2.1
              split
              · apply property_write WaitingListBounded s w sh sc slot _ _ _ _ hg hb
                rintro ⟨h1, h2, h3⟩
                subst h1 h2 h3
                rw [hg] at hshow
                cases hshow
                have hb' : slot.VotedMovies.length ≤ maxMoviesVoted := hb
                simp only [WaitingListBounded, List.length_append, List.length_take,
                  List.length_drop]
                omega
              · apply property_write WaitingListBounded s w sh sc slot _ _ _ _ hg hb
                rintro ⟨h1, h2, h3⟩
                subst h1 h2 h3
                rw [hg] at hshow
                cases hshow
                simp only [WaitingListBounded, hlen]
                exact hb

theorem step_preserves_bound (s next : scheduleAPIServer) (h : Step s next)
    (w sh : Int) (sc : String) (slot : ShowSchedule)
    (hg : getShowSchedule s w sh sc = .success slot) (hb : WaitingListBounded slot) :
    ∃ slot', getShowSchedule next w sh sc = .success slot' ∧ WaitingListBounded slot' := by
  cases h with
  | create auth catalog makeReq =>
    unfold CreateMovieDaySchedule
    repeat' split
    all_goals first
      | exact ⟨slot, hg, hb⟩
      | (apply property_write WaitingListBounded s w sh sc slot _ _ _ _ hg hb
         rintro ⟨h1, h2, h3⟩
         subst h1 h2 h3
         simp_all [WaitingListBounded])
  | add auth catalog addReq =>
    unfold AddVotedMovie
    repeat' split
    all_goals first
      | exact ⟨slot, hg, hb⟩
      | (apply property_write WaitingListBounded s w sh sc slot _ _ _ _ hg hb
         intro _
         simp only [WaitingListBounded, List.length_append, List.length_singleton]
         rename_i hlen
         simp only [ge_iff_le, not_le] at hlen
         omega)
  | vote auth voteReq => exact VoteUpMovie_preserves_bound s auth voteReq w sh sc slot hg hb
  | delete auth delReq =>
    exact DeleteMovieDaySchedule_preserves_bound s auth delReq w sh sc slot hg hb
  | refresh weekDay showNumber screen movieItem =>
    unfold updateMovieInfo
    repeat' split
    all_goals first
      | exact ⟨slot, hg, hb⟩
      | (apply property_write WaitingListBounded s w sh sc slot _ _ _ _ hg hb
         rintro ⟨h1, h2, h3⟩
         subst h1 h2 h3
         simp_all [WaitingListBounded])

/-- C11: the waiting-list bound invariant.  Every slot of the initialized store
has a waiting list of length at most 4 (`maxMoviesVoted`); every
store-mutating step (a public write operation with any request and any
collaborator replies, or a refresh step) maps a slot whose waiting list has
length at most 4 to one with the same property; hence in every state reachable
from the initialized store every slot has a waiting list of length at most 4. -/
theorem C11_waiting_list_bound_invariant :
    maxMoviesVoted = 4 ∧
    (∀ (w sh : Int) (sc : String) (slot : ShowSchedule),
      getShowSchedule (initializeSchedule emptyServer) w sh sc = .success slot →
      slot.VotedMovies.length ≤ maxMoviesVoted) ∧
    (∀ (s next : scheduleAPIServer), Step s next →
      ∀ (w sh : Int) (sc : String) (slot : ShowSchedule),
        getShowSchedule s w sh sc = .success slot →
        slot.VotedMovies.length ≤ maxMoviesVoted →
        ∃ slot', getShowSchedule next w sh sc = .success slot' ∧
          slot'.VotedMovies.length ≤ maxMoviesVoted) ∧
    (∀ (s : scheduleAPIServer), Reachable s →
      ∀ (w sh : Int) (sc : String) (slot : ShowSchedule),
        getShowSchedule s w sh sc = .success slot →
        slot.VotedMovies.length ≤ maxMoviesVoted) := by
  have hinit : ∀ (w sh : Int) (sc : String) (slot : ShowSchedule),
      getShowSchedule (initializeSchedule emptyServer) w sh sc = .success slot →
      slot.VotedMovies.length ≤ maxMoviesVoted := by
    intro w sh sc slot h
    obtain ⟨playtime, rfl⟩ := initialized_slot w sh sc slot h
    simp [initialShow]
  refine ⟨rfl, hinit, step_preserves_bound, ?_⟩
  intro s hr
  induction hr with
  | init => exact hinit
  | step s next _ hstep ih =>
    intro w sh sc slot hg
    cases hprev : getShowSchedule s w sh sc with
    | failure e =>
      rw [step_preserves_failure s next hstep w sh sc e hprev] at hg
      cases hg
    | success old =>
      obtain ⟨slot', h1, h2⟩ :=
        step_preserves_bound s next hstep w sh sc old hprev (ih w sh sc old hprev)
      rw [hg] at h1
      cases h1
      exact h2

theorem C11_waiting_list_bound_invariant_witness :
    scenarioSlot.VotedMovies.length ≤ maxMoviesVoted ∧
    ∃ slot',
      getShowSchedule
        (DeleteMovieDaySchedule (serverWith scenarioSlot) (.success ())
          ⟨1, "Screen 1", 1, "p"⟩).1 1 1 "Screen 1" = .success slot' ∧
      slot'.VotedMovies.length ≤ maxMoviesVoted :=
  ⟨by decide,
   C11_waiting_list_bound_invariant.2.2.1 _ _ (Step.delete _ _ _) 1 1 "Screen 1" _ rfl
     (by decide)⟩

/-- C12 (as stated, refuted): with the waiting entry "a" holding 5 votes, applying
the refresh result `{Id: "a", Title: "A2", CurrentVotes: 0}` overwrites the
whole entry: its vote count becomes 0. -/
theorem C12_refresh_overwrites_votes :
    getShowSchedule
        (updateMovieInfo (serverWith ⟨"11am", some ⟨"p", "P", 3⟩, [⟨"a", "A", 5⟩]⟩)
          1 1 "Screen 1" ⟨"a", "A2", 0⟩).1 1 1 "Screen 1"
      = .success ⟨"11am", some ⟨"p", "P", 3⟩, [⟨"a", "A2", 0⟩]⟩ ∧
    (⟨"a", "A2", 0⟩ : Movie).CurrentVotes ≠ (⟨"a", "A", 5⟩ : Movie).CurrentVotes := by
  constructor
  · rfl
  · decide

/-- C12 (amended): applying a refresh result `movieItem` to an existing slot with a
playing movie completes and overwrites every entry (playing or waiting) whose
id equals `movieItem.Id` with the whole of `movieItem`, so that entry's vote
count becomes `movieItem.CurrentVotes`; every entry whose id differs is
untouched, vote count included; play time, positions and the length of the
waiting list are unchanged. -/
theorem C12_refresh_replaces_matching_entries (s : scheduleAPIServer) (w sh : Int)
    (sc : String) (movieItem : Movie) (slot : ShowSchedule) (p : Movie)
    (hg : getShowSchedule s w sh sc = .success slot) (hp : slot.Movie = some p) :
    (updateMovieInfo s w sh sc movieItem).2 = .ok () ∧
    ∃ slot', getShowSchedule (updateMovieInfo s w sh sc movieItem).1 w sh sc = .success slot' ∧
      slot'.PlayTime = slot.PlayTime ∧
      slot'.Movie = some (if p.Id = movieItem.Id then movieItem else p) ∧
      slot'.VotedMovies.length = slot.VotedMovies.length ∧
      (∀ (j : Nat) (m : Movie), slot.VotedMovies[j]? = some m →
        slot'.VotedMovies[j]? = some (if m.Id = movieItem.Id then movieItem else m)) ∧
      (∀ m ∈ slotMovies slot, m.Id ≠ movieItem.Id → m ∈ slotMovies slot') ∧
      (∀ m ∈ slotMovies slot', m.Id = movieItem.Id →
        m.CurrentVotes = movieItem.CurrentVotes) := by
  have hrun : updateMovieInfo s w sh sc movieItem =
      (writeShowSchedule s w sh sc
        { slot with
          Movie := some (refreshMovie movieItem p),
          VotedMovies := slot.VotedMovies.map (refreshMovie movieItem) }, .ok ()) := by
    simp [updateMovieInfo, hg, hp]
  rw [hrun]
  refine ⟨rfl, _, getShowSchedule_write_same s w sh sc slot _ hg, rfl, rfl, by simp, ?_, ?_, ?_⟩
  · intro j m hj
    simp [List.getElem?_map, hj, refreshMovie]
  · intro m hm hid
    simp only [slotMovies, hp, Option.toList, List.singleton_append, List.mem_cons,
      List.mem_map] at hm ⊢
    rcases hm with rfl | hm
    · left
      simp [refreshMovie, hid]
    · right
      exact ⟨m, hm, by simp [refreshMovie, hid]⟩
  · intro m hm hid
    simp only [slotMovies, Option.toList, List.singleton_append, List.mem_cons,
      List.mem_map] at hm
    rcases hm with rfl | ⟨y, _, rfl⟩
    · rw [refreshMovie_id] at hid
      simp [refreshMovie, hid]
    · rw [refreshMovie_id] at hid
      simp [refreshMovie, hid]

theorem C12_refresh_replaces_matching_entries_witness :
    scenarioSlot.Movie = some ⟨"p", "P", 3⟩ ∧
    (updateMovieInfo (serverWith scenarioSlot) 1 1 "Screen 1" ⟨"b", "B2", 7⟩).2 = .ok () ∧
    ∃ slot',
      getShowSchedule
        (updateMovieInfo (serverWith scenarioSlot) 1 1 "Screen 1" ⟨"b", "B2", 7⟩).1
        1 1 "Screen 1" = .success slot' ∧
      slot'.PlayTime = scenarioSlot.PlayTime ∧
      slot'.Movie = some (if (⟨"p", "P", 3⟩ : Movie).Id = (⟨"b", "B2", 7⟩ : Movie).Id
        then ⟨"b", "B2", 7⟩ else ⟨"p", "P", 3⟩) ∧
      slot'.VotedMovies.length = scenarioSlot.VotedMovies.length ∧
      (∀ (j : Nat) (m : Movie), scenarioSlot.VotedMovies[j]? = some m →
        slot'.VotedMovies[j]? =
          some (if m.Id = (⟨"b", "B2", 7⟩ : Movie).Id then ⟨"b", "B2", 7⟩ else m)) ∧
      (∀ m ∈ slotMovies scenarioSlot, m.Id ≠ (⟨"b", "B2", 7⟩ : Movie).Id →
        m ∈ slotMovies slot') ∧
      (∀ m ∈ slotMovies slot', m.Id = (⟨"b", "B2", 7⟩ : Movie).Id →
        m.CurrentVotes = (⟨"b", "B2", 7⟩ : Movie).CurrentVotes) :=
  ⟨rfl, C12_refresh_replaces_matching_entries (serverWith scenarioSlot) 1 1 "Screen 1"
    ⟨"b", "B2", 7⟩ scenarioSlot ⟨"p", "P", 3⟩ rfl rfl⟩

theorem initialized_days (w : Int) :
    (initializeSchedule emptyServer).weeklySchedule.DaysSchedule w =
      if 1 ≤ w ∧ w ≤ 7 then
        some { ScreensSchedule := (mapInsert mapEmpty "Screen 1"
          { ShowsSchedule := (showsPerDay.foldl
              (fun shows sh => mapInsert shows sh.2 (initialShow sh.1)) mapEmpty) }) }
      else none := by
  simp only [initializeSchedule, emptyServer, weekDays, screensAvailable,
    List.foldl_cons, List.foldl_nil, mapInsert_apply]
  by_cases hw : 1 ≤ w ∧ w ≤ 7
  · rw [if_pos hw]
    have : w = 1 ∨ w = 2 ∨ w = 3 ∨ w = 4 ∨ w = 5 ∨ w = 6 ∨ w = 7 := by omega
    rcases this with h | h | h | h | h | h | h <;> subst h <;> simp
  · rw [if_neg hw]
    have h1 : w ≠ 1 := by omega
    have h2 : w ≠ 2 := by omega
    have h3 : w ≠ 3 := by omega
    have h4 : w ≠ 4 := by omega
    have h5 : w ≠ 5 := by omega
    have h6 : w ≠ 6 := by omega
    have h7 : w ≠ 7 := by omega
    simp [h1, h2, h3, h4, h5, h6, h7, mapEmpty]

theorem initialized_shows (sh : Int) :
    showsPerDay.foldl (fun shows x => mapInsert shows x.2 (initialShow x.1)) mapEmpty sh =
      if sh = 1 then some (initialShow "11am")
      else if sh = 2 then some (initialShow "3pm")
      else if sh = 3 then some (initialShow "6pm")
      else if sh = 4 then some (initialShow "9pm")
      else none := by
  simp only [showsPerDay, List.foldl_cons, List.foldl_nil, mapInsert_apply]
  by_cases h1 : sh = 1
  · subst h1; simp
  · by_cases h2 : sh = 2
    · subst h2; simp
    · by_cases h3 : sh = 3
      · subst h3; simp
      · by_cases h4 : sh = 4
        · subst h4; simp
        · simp [h1, h2, h3, h4, mapEmpty]

theorem initialized_lookup (w sh : Int) (sc : String) :
    getShowSchedule (initializeSchedule emptyServer) w sh sc =
      if 1 ≤ w ∧ w ≤ 7 then
        if sc = "Screen 1" then
          if sh = 1 then .success (initialShow "11am")
          else if sh = 2 then .success (initialShow "3pm")
          else if sh = 3 then .success (initialShow "6pm")
          else if sh = 4 then .success (initialShow "9pm")
          else .failure (.errNoMovieScheduleForShow sh)
        else .failure (.errNoMovieScheduleForScreen sc)
      else .failure (.errNoMovieScheduleForWeekday w) := by
  unfold getShowSchedule getDaySchedule
  rw [initialized_days w]
  by_cases hw : 1 ≤ w ∧ w ≤ 7
  · simp only [if_pos hw, mapInsert_apply]
    by_cases hs : sc = "Screen 1"
    · simp only [if_pos hs, initialized_shows sh]
      by_cases h1 : sh = 1
      · simp [h1]
      · by_cases h2 : sh = 2
        · simp [h2]
        · by_cases h3 : sh = 3
          · simp [h3]
          · by_cases h4 : sh = 4
            · simp [h4]
            · simp [h1, h2, h3, h4]
    · simp [if_neg hs, mapEmpty]
  · simp only [if_neg hw]

/-- C13: the server value returned by `NewShowScheduler` is not the initialized
one.  Looking up the valid slot of week day 1, "Screen 1", show 1 on it fails
with `errNoMovieScheduleForWeekday 1`, and so does every lookup on it, while
the value handed to the background workers holds the populated slot. -/
theorem C13_returned_server_is_not_populated :
    ∃ st, NewShowScheduler = .success st ∧
      getShowSchedule st.served 1 1 "Screen 1" = .failure (.errNoMovieScheduleForWeekday 1) ∧
      GetShowSchedule st.served ⟨1, "Screen 1", 1⟩
        = .error (.errNoMovieScheduleForWeekday 1) ∧
      (∀ (w sh : Int) (sc : String),
        getShowSchedule st.served w sh sc = .failure (.errNoMovieScheduleForWeekday w)) ∧
      getShowSchedule st.workers 1 1 "Screen 1" = .success ⟨"11am", some Movie.zero, []⟩ :=
  ⟨_, rfl, rfl, rfl, fun _ _ _ => rfl, rfl⟩

/-- C14: on the store built by `initializeSchedule`, `getShowSchedule` fails (with a
lookup-miss error: `errNoMovieScheduleForWeekday`, `errNoMovieScheduleForScreen`
or `errNoMovieScheduleForShow`, all of status code `Unknown`) exactly when the
week day is not in 1..7, or the screen is not "Screen 1", or the show number is
not in 1..4; for each of the 7 x 1 x 4 populated keys it returns the slot of
that key, which has the configured play time (11am, 3pm, 6pm, 9pm for shows
1..4), a zero-value playing movie and an empty waiting list.  The lookup is a
read: the public `GetShowSchedule` leaves the server as it is. -/
theorem C14_initialized_store_lookup :
    (∀ (w sh : Int) (sc : String),
      (∃ e, getShowSchedule (initializeSchedule emptyServer) w sh sc = .failure e) ↔
        (¬ (1 ≤ w ∧ w ≤ 7) ∨ sc ≠ "Screen 1" ∨ ¬ (1 ≤ sh ∧ sh ≤ 4))) ∧
    (∀ (w sh : Int) (sc : String) (e : Err),
      getShowSchedule (initializeSchedule emptyServer) w sh sc = .failure e →
      e.code = .Unknown ∧
      (e = .errNoMovieScheduleForWeekday w ∨ e = .errNoMovieScheduleForScreen sc ∨
        e = .errNoMovieScheduleForShow sh)) ∧
    (∀ (w : Int), 1 ≤ w → w ≤ 7 →
      getShowSchedule (initializeSchedule emptyServer) w 1 "Screen 1"
        = .success ⟨"11am", some Movie.zero, []⟩ ∧
      getShowSchedule (initializeSchedule emptyServer) w 2 "Screen 1"
        = .success ⟨"3pm", some Movie.zero, []⟩ ∧
      getShowSchedule (initializeSchedule emptyServer) w 3 "Screen 1"
        = .success ⟨"6pm", some Movie.zero, []⟩ ∧
      getShowSchedule (initializeSchedule emptyServer) w 4 "Screen 1"
        = .success ⟨"9pm", some Movie.zero, []⟩) ∧
    (∀ (auth : Reply Unit) (getReq : GetShowScheduleRequest),
      (runOperation (initializeSchedule emptyServer) auth (.getShow getReq)).1
        = initializeSchedule emptyServer) := by
  refine ⟨?_, ?_, ?_, fun _ _ => rfl⟩
  · intro w sh sc
    rw [initialized_lookup w sh sc]
    by_cases hw : 1 ≤ w ∧ w ≤ 7
    · by_cases hs : sc = "Screen 1"
      · by_cases h1 : sh = 1
        · subst h1; simp [hw, hs]
        · by_cases h2 : sh = 2
          · subst h2; simp [hw, hs]
          · by_cases h3 : sh = 3
            · subst h3; simp [hw, hs]
            · by_cases h4 : sh = 4
              · subst h4; simp [hw, hs]
              · simp only [if_pos hw, if_pos hs, if_neg h1, if_neg h2, if_neg h3, if_neg h4]
                constructor
                · intro _
                  right; right
                  omega
                · intro _
                  exact ⟨_, rfl⟩
      · simp [hw, hs]
    · simp [hw]
  · intro w sh sc e h
    rw [initialized_lookup w sh sc] at h
    repeat' split at h
    all_goals first
      | (cases h; done)
      | (simp only [Reply.failure.injEq] at h
         subst h
         simp [Err.code])
  · intro w h1 h7
    simp [initialized_lookup, h1, h7, initialShow]

theorem C14_initialized_store_lookup_witness :
    (1 : Int) ≤ 3 ∧ (3 : Int) ≤ 7 ∧
    (getShowSchedule (initializeSchedule emptyServer) 3 1 "Screen 1"
        = .success ⟨"11am", some Movie.zero, []⟩ ∧
      getShowSchedule (initializeSchedule emptyServer) 3 2 "Screen 1"
        = .success ⟨"3pm", some Movie.zero, []⟩ ∧
      getShowSchedule (initializeSchedule emptyServer) 3 3 "Screen 1"
        = .success ⟨"6pm", some Movie.zero, []⟩ ∧
      getShowSchedule (initializeSchedule emptyServer) 3 4 "Screen 1"
        = .success ⟨"9pm", some Movie.zero, []⟩) :=
  ⟨by decide, by decide, C14_initialized_store_lookup.2.2.1 3 (by decide) (by decide)⟩

theorem voteFirst_absent (movieID : String) (l : List Movie)
    (h : ∀ m ∈ l, m.Id ≠ movieID) : voteFirst movieID l = l := by
  induction l with
  | nil => rfl
  | cons x rest ih =>
    have hx : x.Id ≠ movieID := h x (List.mem_cons_self _ _)
    simp [voteFirst, hx, ih (fun m hm => h m (List.mem_cons_of_mem _ hm))]

/-- C15 (as stated, refuted): a valid vote for "x", which is neither the playing
movie nor a waiting entry.  On the slot with playing "p" (0 votes) and waiting
list `[a (5 votes)]` the call promotes "a": the slot afterwards has playing "a"
and waiting list `[p]`.  On the initialized slot, whose waiting list is empty,
the call does not complete: it panics. -/
theorem C15_vote_for_absent_movie_promotes_or_faults :
    getShowSchedule
        (VoteUpMovie (serverWith ⟨"11am", some ⟨"p", "P", 0⟩, [⟨"a", "A", 5⟩]⟩)
          (.success ()) (voteFor "x")).1 1 1 "Screen 1"
      = .success ⟨"11am", some ⟨"a", "A", 5⟩, [⟨"p", "P", 0⟩]⟩ ∧
    (⟨"11am", some ⟨"a", "A", 5⟩, [⟨"p", "P", 0⟩]⟩ : ShowSchedule)
      ≠ ⟨"11am", some ⟨"p", "P", 0⟩, [⟨"a", "A", 5⟩]⟩ ∧
    (VoteUpMovie (initializeSchedule emptyServer) (.success ()) (voteFor "x")).2 = .fault := by
  refine ⟨rfl, ?_, rfl⟩
  decide

/-- C15 (amended): for a valid request on an existing slot with a playing movie and
a non-empty waiting list, whose movie id matches neither the playing movie nor
any waiting entry: the call completes and no vote count changes (the movies of
the slot are the same up to their order); `swapMovies` still runs, so with
`top` the highest-voted waiting entry (index `i`), if `top` has strictly more
votes than the playing movie the two exchange places and `top` is returned,
and otherwise the slot is exactly as before and the playing movie is
returned. -/
theorem C15_vote_for_absent_movie (s : scheduleAPIServer) (voteReq : VoteUpMovieRequest)
    (slot : ShowSchedule) (p : Movie) (hvalid : ValidVoteUp voteReq)
    (hg : getShowSchedule s voteReq.WeekDay voteReq.ShowNumber voteReq.Screen = .success slot)
    (hp : slot.Movie = some p) (hpid : p.Id ≠ voteReq.MovieId)
    (habs : ∀ m ∈ slot.VotedMovies, m.Id ≠ voteReq.MovieId)
    (hne : slot.VotedMovies ≠ []) :
    ∃ i top slot',
      higherVotesIndex slot.VotedMovies = some i ∧ slot.VotedMovies[i]? = some top ∧
      getShowSchedule (VoteUpMovie s (.success ()) voteReq).1
        voteReq.WeekDay voteReq.ShowNumber voteReq.Screen = .success slot' ∧
      (slotMovies slot').Perm (slotMovies slot) ∧
      (p.CurrentVotes < top.CurrentVotes →
        (VoteUpMovie s (.success ()) voteReq).2 = .ok top ∧
        slot' = { slot with Movie := some top, VotedMovies := slot.VotedMovies.set i p }) ∧
      (¬ p.CurrentVotes < top.CurrentVotes →
        (VoteUpMovie s (.success ()) voteReq).2 = .ok p ∧ slot' = slot) := by
  obtain ⟨i, top, h1, h2, _, _⟩ := higherVotesIndex_spec slot.VotedMovies hne
  have hvf := voteFirst_absent voteReq.MovieId slot.VotedMovies habs
  have hswap := swapMovies_eq p slot.VotedMovies i top h1 h2
  have hsm : slotMovies slot = p :: slot.VotedMovies := by simp [slotMovies, hp]
  by_cases hc : p.CurrentVotes < top.CurrentVotes
  · rw [if_pos hc, ← hvf] at hswap
    have hrun := VoteUpMovie_waiting s voteReq slot p _ _ _ hvalid hg hp hpid hswap
    rw [hvf] at hrun
    refine ⟨i, top, { slot with Movie := some top, VotedMovies := slot.VotedMovies.set i p },
      h1, h2, ?_, ?_, ?_, ?_⟩
    · rw [hrun]
      exact getShowSchedule_write_same s _ _ _ slot _ hg
    · rw [hsm]
      simpa [slotMovies] using set_perm_of_getElem slot.VotedMovies i top p h2
    · intro _
      rw [hrun]
      exact ⟨rfl, rfl⟩
    · intro h
      exact absurd hc h
  · rw [if_neg hc, ← hvf] at hswap
    have hrun := VoteUpMovie_waiting s voteReq slot p _ _ _ hvalid hg hp hpid hswap
    rw [hvf] at hrun
    have hsame : ({ slot with Movie := some p, VotedMovies := slot.VotedMovies } : ShowSchedule)
        = slot := by
      rw [← hp]
    rw [hsame] at hrun
    refine ⟨i, top, slot, h1, h2, ?_, List.Perm.refl _, ?_, ?_⟩
    · rw [hrun]
      exact getShowSchedule_write_same s _ _ _ slot _ hg
    · intro h
      exact absurd h hc
    · intro _
      rw [hrun]
      exact ⟨rfl, rfl⟩

theorem C15_vote_for_absent_movie_witness :
    ValidVoteUp (voteFor "x") ∧ scenarioSlot.VotedMovies ≠ [] ∧
    ∃ i top slot',
      higherVotesIndex scenarioSlot.VotedMovies = some i ∧
      scenarioSlot.VotedMovies[i]? = some top ∧
      getShowSchedule (VoteUpMovie (serverWith scenarioSlot) (.success ()) (voteFor "x")).1
        (voteFor "x").WeekDay (voteFor "x").ShowNumber (voteFor "x").Screen
        = .success slot' ∧
      (slotMovies slot').Perm (slotMovies scenarioSlot) ∧
      ((⟨"p", "P", 3⟩ : Movie).CurrentVotes < top.CurrentVotes →
        (VoteUpMovie (serverWith scenarioSlot) (.success ()) (voteFor "x")).2 = .ok top ∧
        slot' = { scenarioSlot with
          Movie := some top, VotedMovies := scenarioSlot.VotedMovies.set i ⟨"p", "P", 3⟩ }) ∧
      (¬ (⟨"p", "P", 3⟩ : Movie).CurrentVotes < top.CurrentVotes →
        (VoteUpMovie (serverWith scenarioSlot) (.success ()) (voteFor "x")).2
          = .ok ⟨"p", "P", 3⟩ ∧ slot' = scenarioSlot) :=
  ⟨by decide, by decide,
   C15_vote_for_absent_movie (serverWith scenarioSlot) (voteFor "x") scenarioSlot
     ⟨"p", "P", 3⟩ (by decide) rfl rfl (by decide) (by decide) (by decide)⟩

/-- C16: for a valid request on an existing slot with a playing movie
(authentication passing), when the catalog-resolved movie's id is already the
playing movie's id or the id of a waiting entry of the slot, both
`CreateMovieDaySchedule` and `AddVotedMovie` fail with `errMovieScheduleExist`
for that id and leave the server, hence the slot, unchanged. -/
theorem C16_already_scheduled_movie_is_rejected (s : scheduleAPIServer) (movieItem : Movie)
    (makeReq : CreateMovieDayScheduleRequest) (addReq : AddVotedMovieRequest)
    (slot slot2 : ShowSchedule) (p p2 : Movie)
    (hvc : ValidCreate makeReq) (hva : ValidAdd addReq)
    (hgc : getShowSchedule s makeReq.WeekDay makeReq.Show makeReq.Screen = .success slot)
    (hpc : slot.Movie = some p)
    (_hinc : p.Id = movieItem.Id ∨ ∃ m ∈ slot.VotedMovies, m.Id = movieItem.Id)
    (hga : getShowSchedule s addReq.WeekDay addReq.Show addReq.Screen = .success slot2)
    (hpa : slot2.Movie = some p2)
    (_hina : p2.Id = movieItem.Id ∨ ∃ m ∈ slot2.VotedMovies, m.Id = movieItem.Id) :
    CreateMovieDaySchedule s (.success ()) (.success movieItem) makeReq
      = (s, .error (.errMovieScheduleExist movieItem.Id)) ∧
    getShowSchedule
        (CreateMovieDaySchedule s (.success ()) (.success movieItem) makeReq).1
        makeReq.WeekDay makeReq.Show makeReq.Screen = .success slot ∧
    AddVotedMovie s (.success ()) (.success movieItem) addReq
      = (s, .error (.errMovieScheduleExist movieItem.Id)) ∧
    getShowSchedule
        (AddVotedMovie s (.success ()) (.success movieItem) addReq).1
        addReq.WeekDay addReq.Show addReq.Screen = .success slot2 := by
  have hc := CreateMovieDaySchedule_valid_of_playing s movieItem makeReq slot p hvc hgc hpc
  have ha := AddVotedMovie_valid_of_playing s movieItem addReq slot2 p2 hva hga hpa
  refine ⟨hc, ?_, ha, ?_⟩
  · rw [hc]
    exact hgc
  · rw [ha]
    exact hga

theorem C16_already_scheduled_movie_is_rejected_witness :
    ValidCreate ⟨1, "Screen 1", 1, "a"⟩ ∧ ValidAdd ⟨1, "Screen 1", 1, "a"⟩ ∧
    CreateMovieDaySchedule (serverWith scenarioSlot) (.success ()) (.success ⟨"a", "A", 0⟩)
        ⟨1, "Screen 1", 1, "a"⟩
      = (serverWith scenarioSlot, .error (.errMovieScheduleExist (⟨"a", "A", 0⟩ : Movie).Id)) ∧
    getShowSchedule
        (CreateMovieDaySchedule (serverWith scenarioSlot) (.success ())
          (.success ⟨"a", "A", 0⟩) ⟨1, "Screen 1", 1, "a"⟩).1
        1 1 "Screen 1" = .success scenarioSlot ∧
    AddVotedMovie (serverWith scenarioSlot) (.success ()) (.success ⟨"a", "A", 0⟩)
        ⟨1, "Screen 1", 1, "a"⟩
      = (serverWith scenarioSlot, .error (.errMovieScheduleExist (⟨"a", "A", 0⟩ : Movie).Id)) ∧
    getShowSchedule
        (AddVotedMovie (serverWith scenarioSlot) (.success ())
          (.success ⟨"a", "A", 0⟩) ⟨1, "Screen 1", 1, "a"⟩).1
        1 1 "Screen 1" = .success scenarioSlot :=
  ⟨by decide, by decide,
   C16_already_scheduled_movie_is_rejected (serverWith scenarioSlot) ⟨"a", "A", 0⟩
     ⟨1, "Screen 1", 1, "a"⟩ ⟨1, "Screen 1", 1, "a"⟩ scenarioSlot scenarioSlot
     ⟨"p", "P", 3⟩ ⟨"p", "P", 3⟩ (by decide) (by decide) rfl rfl
     (Or.inr (by decide)) rfl rfl (Or.inr (by decide))⟩

theorem validateVoteUp_invalid (voteReq : VoteUpMovieRequest) (h : ¬ ValidVoteUp voteReq) :
    ∃ e, validateVoteUp voteReq = some e ∧
      (e.code = .InvalidArgument ∨ e.code = .FailedPrecondition) ∧
      (trimSpaces voteReq.Screen ≠ "" ∧ trimSpaces voteReq.UserId ≠ "" ∧
        trimSpaces voteReq.MovieId ≠ "" → e.code = .InvalidArgument) ∧
      (0 < voteReq.WeekDay ∧ voteReq.WeekDay ≤ 7 ∧ 0 < voteReq.ShowNumber →
        e.code = .FailedPrecondition) := by
  unfold validateVoteUp
  by_cases h1 : trimSpaces voteReq.Screen = ""
  · exact ⟨_, by rw [if_pos h1], by simp [Err.code], by simp [h1], by simp [Err.code]⟩
  · by_cases h2 : trimSpaces voteReq.UserId = ""
    · exact ⟨_, by rw [if_neg h1, if_pos h2], by simp [Err.code], by simp [h2],
        by simp [Err.code]⟩
    · by_cases h3 : trimSpaces voteReq.MovieId = ""
      · exact ⟨_, by rw [if_neg h1, if_neg h2, if_pos h3], by simp [Err.code], by simp [h3],
          by simp [Err.code]⟩
      · by_cases h4 : voteReq.WeekDay ≤ 0 ∨ voteReq.WeekDay > 7
        · refine ⟨_, by rw [if_neg h1, if_neg h2, if_neg h3, if_pos h4], by simp [Err.code],
            by simp [Err.code], ?_⟩
          intro hc
          omega
        · by_cases h5 : voteReq.ShowNumber ≤ 0
          · refine ⟨_, by rw [if_neg h1, if_neg h2, if_neg h3, if_neg h4, if_pos h5],
              by simp [Err.code], by simp [Err.code], ?_⟩
            intro hc
            omega
          · exact absurd ⟨h1, h2, h3, by omega, by omega, by omega⟩ h

theorem validateCreate_invalid (makeReq : CreateMovieDayScheduleRequest)
    (h : ¬ ValidCreate makeReq) :
    ∃ e, validateCreate makeReq = some e ∧
      (e.code = .InvalidArgument ∨ e.code = .FailedPrecondition) ∧
      (trimSpaces makeReq.Screen ≠ "" ∧ trimSpaces makeReq.MovieId ≠ "" →
        e.code = .InvalidArgument) ∧
      (0 < makeReq.WeekDay ∧ makeReq.WeekDay ≤ 7 ∧ 0 < makeReq.Show →
        e.code = .FailedPrecondition) := by
  unfold validateCreate
  by_cases h1 : makeReq.WeekDay ≤ 0 ∨ makeReq.WeekDay > 7
  · refine ⟨_, by rw [if_pos h1], by simp [Err.code], by simp [Err.code], ?_⟩
    intro hc
    omega
  · by_cases h2 : trimSpaces makeReq.Screen = ""
    · exact ⟨_, by rw [if_neg h1, if_pos h2], by simp [Err.code], by simp [h2],
        by simp [Err.code]⟩
    · by_cases h3 : trimSpaces makeReq.MovieId = ""
      · exact ⟨_, by rw [if_neg h1, if_neg h2, if_pos h3], by simp [Err.code], by simp [h3],
          by simp [Err.code]⟩
      · by_cases h4 : makeReq.Show ≤ 0
        · refine ⟨_, by rw [if_neg h1, if_neg h2, if_neg h3, if_pos h4], by simp [Err.code],
            by simp [Err.code], ?_⟩
          intro hc
          omega
        · exact absurd ⟨by omega, by omega, h2, h3, by omega⟩ h

theorem validateAdd_invalid (addReq : AddVotedMovieRequest) (h : ¬ ValidAdd addReq) :
    ∃ e, validateAdd addReq = some e ∧
      (e.code = .InvalidArgument ∨ e.code = .FailedPrecondition) ∧
      (trimSpaces addReq.Screen ≠ "" ∧ trimSpaces addReq.MovieId ≠ "" →
        e.code = .InvalidArgument) ∧
      (0 < addReq.WeekDay ∧ addReq.WeekDay ≤ 7 ∧ 0 < addReq.Show →
        e.code = .FailedPrecondition) := by
  unfold validateAdd
  by_cases h1 : addReq.WeekDay ≤ 0 ∨ addReq.WeekDay > 7
  · refine ⟨_, by rw [if_pos h1], by simp [Err.code], by simp [Err.code], ?_⟩
    intro hc
    omega
  · by_cases h2 : trimSpaces addReq.Screen = ""
    · exact ⟨_, by rw [if_neg h1, if_pos h2], by simp [Err.code], by simp [h2],
        by simp [Err.code]⟩
    · by_cases h3 : addReq.Show ≤ 0
      · refine ⟨_, by rw [if_neg h1, if_neg h2, if_pos h3], by simp [Err.code],
          by simp [Err.code], ?_⟩
        intro hc
        omega
      · by_cases h4 : trimSpaces addReq.MovieId = ""
        · exact ⟨_, by rw [if_neg h1, if_neg h2, if_neg h3, if_pos h4], by simp [Err.code],
            by simp [h4], by simp [Err.code]⟩
        · exact absurd ⟨by omega, by omega, h2, by omega, h4⟩ h

theorem validateDelete_invalid (delReq : DeleteMovieDayScheduleRequest)
    (h : ¬ ValidDelete delReq) :
    ∃ e, validateDelete delReq = some e ∧
      (e.code = .InvalidArgument ∨ e.code = .FailedPrecondition) ∧
      (trimSpaces delReq.Screen ≠ "" ∧ trimSpaces delReq.MovieId ≠ "" →
        e.code = .InvalidArgument) ∧
      (0 < delReq.WeekDay ∧ delReq.WeekDay ≤ 7 ∧ 0 < delReq.Show →
        e.code = .FailedPrecondition) := by
  unfold validateDelete
  by_cases h1 : delReq.WeekDay ≤ 0 ∨ delReq.WeekDay > 7
  · refine ⟨_, by rw [if_pos h1], by simp [Err.code], by simp [Err.code], ?_⟩
    intro hc
    omega
  · by_cases h2 : trimSpaces delReq.Screen = ""
    · exact ⟨_, by rw [if_neg h1, if_pos h2], by simp [Err.code], by simp [h2],
        by simp [Err.code]⟩
    · by_cases h3 : delReq.Show ≤ 0
      · refine ⟨_, by rw [if_neg h1, if_neg h2, if_pos h3], by simp [Err.code],
          by simp [Err.code], ?_⟩
        intro hc
        omega
      · by_cases h4 : trimSpaces delReq.MovieId = ""
        · exact ⟨_, by rw [if_neg h1, if_neg h2, if_neg h3, if_pos h4], by simp [Err.code],
            by simp [h4], by simp [Err.code]⟩
        · exact absurd ⟨by omega, by omega, h2, by omega, h4⟩ h

theorem validateGetShow_invalid (getReq : GetShowScheduleRequest)
    (h : ¬ ValidGetShow getReq) :
    ∃ e, validateGetShow getReq = some e ∧
      (e.code = .InvalidArgument ∨ e.code = .FailedPrecondition) ∧
      (trimSpaces getReq.Screen ≠ "" → e.code = .InvalidArgument) ∧
      (0 < getReq.WeekDay ∧ getReq.WeekDay ≤ 7 ∧ 0 < getReq.Show →
        e.code = .FailedPrecondition) := by
  unfold validateGetShow
  by_cases h1 : getReq.WeekDay ≤ 0 ∨ getReq.WeekDay > 7
  · refine ⟨_, by rw [if_pos h1], by simp [Err.code], by simp [Err.code], ?_⟩
    intro hc
    omega
  · by_cases h2 : trimSpaces getReq.Screen = ""
    · exact ⟨_, by rw [if_neg h1, if_pos h2], by simp [Err.code], by simp [h2],
        by simp [Err.code]⟩
    · by_cases h3 : getReq.Show ≤ 0
      · refine ⟨_, by rw [if_neg h1, if_neg h2, if_pos h3], by simp [Err.code],
          by simp [Err.code], ?_⟩
        intro hc
        omega
      · exact absurd ⟨by omega, by omega, h2, by omega⟩ h

/-- C17 (as stated, refuted): a `VoteUpMovie` request whose screen is blank (all
other fields valid, authentication passing) fails with
`errMissingCredential "Screen"`, whose status code is `FailedPrecondition`,
not `InvalidArgument`. -/
theorem C17_blank_identifier_is_failed_precondition :
    (VoteUpMovie (initializeSchedule emptyServer) (.success ())
        ⟨"m1", "u1", "  ", 1, 1⟩).2 = .error (.errMissingCredential "Screen") ∧
    (Err.errMissingCredential "Screen").code = .FailedPrecondition ∧
    (Err.errMissingCredential "Screen").code ≠ .InvalidArgument := by
  refine ⟨rfl, rfl, ?_⟩
  decide

theorem drainResults_after_failure (s : scheduleAPIServer) (w sh : Int) (sc : String)
    (e : Err) (res : updatedMovie) (rest : List updatedMovie) :
    drainResults (⟨w, sh, sc, .failure e⟩ :: res :: rest) ⟨s, false⟩
      = .blocked ⟨s, true⟩ (res :: rest) := by
  simp [drainResults]

/-- C18: the drain of the two results "fetch of `a` failed" then "fetch of `b`
succeeded with title B2" for the slot of week day 1, "Screen 1", show 1,
started with the mutex free.  The failed result changes no slot state, but the
loop keeps the mutex (`continue` without `Unlock`) and blocks in `Lock()` on
the next result: the successful result stays pending and the slot still holds
the old entry of `b`.  Drained alone, the successful result is applied. -/
theorem C18_failed_fetch_blocks_later_updates :
    (drainResults
        [⟨1, 1, "Screen 1", .failure (.remote .NotFound "no movie")⟩,
         ⟨1, 1, "Screen 1", .success ⟨"b", "B2", 2⟩⟩]
        ⟨serverWith scenarioSlot, false⟩).isBlocked = true ∧
    (drainResults
        [⟨1, 1, "Screen 1", .failure (.remote .NotFound "no movie")⟩,
         ⟨1, 1, "Screen 1", .success ⟨"b", "B2", 2⟩⟩]
        ⟨serverWith scenarioSlot, false⟩).muLocked = true ∧
    (drainResults
        [⟨1, 1, "Screen 1", .failure (.remote .NotFound "no movie")⟩,
         ⟨1, 1, "Screen 1", .success ⟨"b", "B2", 2⟩⟩]
        ⟨serverWith scenarioSlot, false⟩).pending
      = [⟨1, 1, "Screen 1", .success ⟨"b", "B2", 2⟩⟩] ∧
    getShowSchedule
        (drainResults
          [⟨1, 1, "Screen 1", .failure (.remote .NotFound "no movie")⟩,
           ⟨1, 1, "Screen 1", .success ⟨"b", "B2", 2⟩⟩]
          ⟨serverWith scenarioSlot, false⟩).server 1 1 "Screen 1"
      = .success ⟨"11am", some ⟨"p", "P", 3⟩, [⟨"a", "A", 5⟩, ⟨"b", "B", 2⟩]⟩ ∧
    getShowSchedule
        (drainResults [⟨1, 1, "Screen 1", .success ⟨"b", "B2", 2⟩⟩]
          ⟨serverWith scenarioSlot, false⟩).server 1 1 "Screen 1"
      = .success ⟨"11am", some ⟨"p", "P", 3⟩, [⟨"a", "A", 5⟩, ⟨"b", "B2", 2⟩]⟩ := by
  refine ⟨rfl, rfl, rfl, rfl, rfl⟩

/-- C19 (as stated, refuted): with an account service that rejects the call
(`PermissionDenied`), `GetShowSchedule` and `GetDaySchedule` on the initialized
store still succeed and return their payload: neither calls
`AuthenticateRequest`. -/
theorem C19_reads_do_not_authenticate :
    (runOperation (initializeSchedule emptyServer)
        (.failure (.remote .PermissionDenied "denied")) (.getShow ⟨1, "Screen 1", 1⟩)).2
      = .ok (.showSchedule ⟨"11am", some Movie.zero, []⟩) ∧
    (runOperation (initializeSchedule emptyServer)
        (.failure (.remote .PermissionDenied "denied")) (.getShow ⟨1, "Screen 1", 1⟩)).2
      ≠ .error (.remote .PermissionDenied "denied") ∧
    (∃ d, (runOperation (initializeSchedule emptyServer)
        (.failure (.remote .PermissionDenied "denied")) (.getDay ⟨1⟩)).2
      = .ok (.daySchedule d)) := by
  refine ⟨rfl, ?_, ⟨_, rfl⟩⟩
  intro h
  cases h

/-- C19 (amended): each of the four mutating operations (`CreateMovieDaySchedule`,
`AddVotedMovie`, `VoteUpMovie`, `DeleteMovieDaySchedule`) authenticates the
call: when the account service returns an error the operation fails with that
error, returns no payload and leaves the store untouched, whatever the request
and the catalog reply.  `GetDaySchedule` and `GetShowSchedule` do not
authenticate: their result is the same whatever the account service replies,
and they leave the store untouched. -/
theorem C19_mutating_operations_authenticate :
    (∀ (s : scheduleAPIServer) (e : Err) (catalog : Reply Movie)
        (makeReq : CreateMovieDayScheduleRequest),
      runOperation s (.failure e) (.assignMovie catalog makeReq) = (s, .error e)) ∧
    (∀ (s : scheduleAPIServer) (e : Err) (catalog : Reply Movie)
        (addReq : AddVotedMovieRequest),
      runOperation s (.failure e) (.addToWaitingList catalog addReq) = (s, .error e)) ∧
    (∀ (s : scheduleAPIServer) (e : Err) (voteReq : VoteUpMovieRequest),
      runOperation s (.failure e) (.voteUp voteReq) = (s, .error e)) ∧
    (∀ (s : scheduleAPIServer) (e : Err) (delReq : DeleteMovieDayScheduleRequest),
      runOperation s (.failure e) (.removeMovie delReq) = (s, .error e)) ∧
    (∀ (s : scheduleAPIServer) (auth : Reply Unit) (getReq : GetDayScheduleRequest),
      runOperation s auth (.getDay getReq) = runOperation s (.success ()) (.getDay getReq) ∧
      (runOperation s auth (.getDay getReq)).1 = s) ∧
    (∀ (s : scheduleAPIServer) (auth : Reply Unit) (getReq : GetShowScheduleRequest),
      runOperation s auth (.getShow getReq) = runOperation s (.success ()) (.getShow getReq) ∧
      (runOperation s auth (.getShow getReq)).1 = s) := by
  refine ⟨?_, ?_, ?_, ?_, ?_, ?_⟩
  · intro s e catalog makeReq
    rfl
  · intro s e catalog addReq
    rfl
  · intro s e voteReq
    rfl
  · intro s e delReq
    rfl
  · intro s auth getReq
    exact ⟨rfl, rfl⟩
  · intro s auth getReq
    exact ⟨rfl, rfl⟩

/-- C20: removing the playing movie "p" from a slot whose waiting list is empty
(valid request, authentication passing) does not return a result: the call
panics in `higherVotesIndex` on `movies[0]`, after the vote count of "p" has
been set to -1. -/
theorem C20_delete_with_empty_waiting_list_faults :
    (DeleteMovieDaySchedule (serverWith ⟨"11am", some ⟨"p", "P", 3⟩, []⟩)
        (.success ()) ⟨1, "Screen 1", 1, "p"⟩).2 = .fault ∧
    higherVotesIndex [] = none ∧
    getShowSchedule
        (DeleteMovieDaySchedule (serverWith ⟨"11am", some ⟨"p", "P", 3⟩, []⟩)
          (.success ()) ⟨1, "Screen 1", 1, "p"⟩).1 1 1 "Screen 1"
      = .success ⟨"11am", some ⟨"p", "P", -1⟩, []⟩ := by
  refine ⟨rfl, rfl, rfl⟩

theorem higherVotesIndex_eq_spec (l : List Movie) (hne : l ≠ []) :
    higherVotesIndex l = some (indexOfHighestVotes_spec l) := by
  obtain ⟨i, top, h1, h2, h3, h4⟩ := higherVotesIndex_spec l hne
  obtain ⟨hlt, hget⟩ := List.getElem?_eq_some_iff.mp h2
  rw [h1]
  congr 1
  symm
  unfold indexOfHighestVotes_spec
  rw [List.findIdx_eq hlt]
  constructor
  · rw [hget]
    simp only [decide_eq_true_eq]
    intro x hx
    obtain ⟨j, hj⟩ := List.getElem?_of_mem hx
    exact h3 j x hj
  · intro j hji
    simp only [decide_eq_false_iff_not, not_forall]
    have hjl : j < l.length := Nat.lt_trans hji hlt
    have hjm : l[j]? = some l[j] := List.getElem?_eq_getElem hjl
    have hlt' := h4 j l[j] hji hjm
    exact ⟨top, hget ▸ List.getElem_mem hlt, not_le.mpr hlt'⟩

theorem swapMovies_eq_promoteIfHigher_spec (playing : Movie) (l : List Movie) (hne : l ≠ []) :
    swapMovies playing l =
      some ((promoteIfHigher_spec playing l).1, (promoteIfHigher_spec playing l).2,
        indexOfHighestVotes_spec l) := by
  obtain ⟨i, top, h1, h2, _, _⟩ := higherVotesIndex_spec l hne
  have hi := higherVotesIndex_eq_spec l hne
  rw [h1] at hi
  have hi' : i = indexOfHighestVotes_spec l := Option.some.inj hi
  rw [swapMovies_eq playing l i top h1 h2]
  unfold promoteIfHigher_spec
  rw [← hi', h2]
  by_cases hc : playing.CurrentVotes < top.CurrentVotes
  · simp only [if_pos hc]
  · simp only [if_neg hc]

theorem findIdx_target (movieID : String) (l : List Movie) (k : Nat) (e : Movie)
    (hk : l[k]? = some e) (he : e.Id = movieID)
    (hfirst : ∀ (j : Nat) (m : Movie), j < k → l[j]? = some m → m.Id ≠ movieID) :
    l.findIdx (fun m => decide (m.Id = movieID)) = k := by
  obtain ⟨hlt, hget⟩ := List.getElem?_eq_some_iff.mp hk
  rw [List.findIdx_eq hlt]
  constructor
  · rw [hget]
    simpa using he
  · intro j hji
    have hjl : j < l.length := Nat.lt_trans hji hlt
    simpa using hfirst j l[j] hji (List.getElem?_eq_getElem hjl)

theorem plusOneVote_eq_incVotes (m : Movie) (hlo : -2147483648 ≤ m.CurrentVotes)
    (hhi : m.CurrentVotes < 2147483647) : incVotes m = plusOneVote m := by
  rw [incVotes_of_range m hlo hhi]
  rfl

theorem voteFirst_eq_incrementTarget_spec (playing : Movie) (movieID : String)
    (l : List Movie) (k : Nat) (e : Movie) (hpid : playing.Id ≠ movieID)
    (hk : l[k]? = some e) (he : e.Id = movieID)
    (hfirst : ∀ (j : Nat) (m : Movie), j < k → l[j]? = some m → m.Id ≠ movieID)
    (hlo : -2147483648 ≤ e.CurrentVotes) (hhi : e.CurrentVotes < 2147483647) :
    incrementTarget_spec playing l movieID = (playing, voteFirst movieID l) := by
  unfold incrementTarget_spec
  rw [if_neg hpid, findIdx_target movieID l k e hk he hfirst, hk,
    voteFirst_eq_set movieID l k e hk he hfirst, plusOneVote_eq_incVotes e hlo hhi]

/-- C4 (as stated, refuted): with playing movie "p" (0 votes) and the waiting
entry "a" (5 votes), `VoteUpMovie` for the playing movie "p" only increments it
and returns; the state that increments and then runs `promoteIfHigher`
promotes "a".  After the call the waiting entry "a" has strictly more votes
than the playing movie.  Moreover, with the waiting entry "a" at 2147483647
votes, `VoteUpMovie` for "a" wraps its count to -2147483648 and promotes
nothing, while incrementing by 1 and promoting makes "a" the playing movie. -/
theorem C4_voteUp_playing_target_skips_promotion :
    getShowSchedule
        (VoteUpMovie (serverWith ⟨"11am", some ⟨"p", "P", 0⟩, [⟨"a", "A", 5⟩]⟩)
          (.success ()) (voteFor "p")).1 1 1 "Screen 1"
      = .success ⟨"11am", some ⟨"p", "P", 1⟩, [⟨"a", "A", 5⟩]⟩ ∧
    VoteUp_spec ⟨"11am", some ⟨"p", "P", 0⟩, [⟨"a", "A", 5⟩]⟩ "p"
      = some ⟨"11am", some ⟨"a", "A", 5⟩, [⟨"p", "P", 1⟩]⟩ ∧
    (⟨"11am", some ⟨"p", "P", 1⟩, [⟨"a", "A", 5⟩]⟩ : ShowSchedule)
      ≠ ⟨"11am", some ⟨"a", "A", 5⟩, [⟨"p", "P", 1⟩]⟩ ∧
    (⟨"p", "P", 1⟩ : Movie).CurrentVotes < (⟨"a", "A", 5⟩ : Movie).CurrentVotes ∧
    getShowSchedule
        (VoteUpMovie (serverWith ⟨"11am", some ⟨"p", "P", 0⟩, [⟨"a", "A", 2147483647⟩]⟩)
          (.success ()) (voteFor "a")).1 1 1 "Screen 1"
      = .success ⟨"11am", some ⟨"p", "P", 0⟩, [⟨"a", "A", -2147483648⟩]⟩ ∧
    VoteUp_spec ⟨"11am", some ⟨"p", "P", 0⟩, [⟨"a", "A", 2147483647⟩]⟩ "a"
      = some ⟨"11am", some ⟨"a", "A", 2147483648⟩, [⟨"p", "P", 0⟩]⟩ := by
  refine ⟨rfl, ?_, ?_, ?_, rfl, ?_⟩ <;> decide

/-- C4 (amended): for a valid request on an existing slot with a playing movie and
a non-empty waiting list, whose target's vote count is an `int32` value below
2147483647.  When the target is a waiting entry and not the playing movie, the
slot after `VoteUpMovie` equals the state obtained by incrementing the
target's vote count by 1 and then applying `promoteIfHigher` (`VoteUp_spec`),
the returned movie is its playing movie, and no waiting entry has strictly
more votes than the playing movie.  When the target is the playing movie, its
vote count is incremented by 1 and nothing else happens: the waiting list is
unchanged and no promotion is attempted. -/
theorem C4_voteUp_refines_increment_then_promote (s : scheduleAPIServer)
    (voteReq : VoteUpMovieRequest) (slot : ShowSchedule) (p : Movie)
    (hvalid : ValidVoteUp voteReq)
    (hg : getShowSchedule s voteReq.WeekDay voteReq.ShowNumber voteReq.Screen = .success slot)
    (hp : slot.Movie = some p) (hne : slot.VotedMovies ≠ []) :
    (p.Id ≠ voteReq.MovieId →
      ∀ (k : Nat) (e : Movie), slot.VotedMovies[k]? = some e → e.Id = voteReq.MovieId →
        (∀ (j : Nat) (m : Movie), j < k → slot.VotedMovies[j]? = some m →
          m.Id ≠ voteReq.MovieId) →
        -2147483648 ≤ e.CurrentVotes → e.CurrentVotes < 2147483647 →
        ∃ slot' p',
          VoteUp_spec slot voteReq.MovieId = some slot' ∧
          getShowSchedule (VoteUpMovie s (.success ()) voteReq).1
            voteReq.WeekDay voteReq.ShowNumber voteReq.Screen = .success slot' ∧
          slot'.Movie = some p' ∧
          (VoteUpMovie s (.success ()) voteReq).2 = .ok p' ∧
          (∀ m ∈ slot'.VotedMovies, m.CurrentVotes ≤ p'.CurrentVotes)) ∧
    (p.Id = voteReq.MovieId →
      -2147483648 ≤ p.CurrentVotes → p.CurrentVotes < 2147483647 →
      (VoteUpMovie s (.success ()) voteReq).2
        = .ok { p with CurrentVotes := p.CurrentVotes + 1 } ∧
      getShowSchedule (VoteUpMovie s (.success ()) voteReq).1
        voteReq.WeekDay voteReq.ShowNumber voteReq.Screen
        = .success { slot with Movie := some { p with CurrentVotes := p.CurrentVotes + 1 } }) := by
  constructor
  · intro hid k e hk he hfirst hlo hhi
    have hne' := voteFirst_ne_nil voteReq.MovieId slot.VotedMovies hne
    have hinc := voteFirst_eq_incrementTarget_spec p voteReq.MovieId slot.VotedMovies k e hid
      hk he hfirst hlo hhi
    have hswap := swapMovies_eq_promoteIfHigher_spec p
      (voteFirst voteReq.MovieId slot.VotedMovies) hne'
    have hrun := VoteUpMovie_waiting s voteReq slot p _ _ _ hvalid hg hp hid hswap
    refine ⟨{ slot with
        Movie := some (promoteIfHigher_spec p (voteFirst voteReq.MovieId slot.VotedMovies)).1,
        VotedMovies := (promoteIfHigher_spec p (voteFirst voteReq.MovieId slot.VotedMovies)).2 },
      (promoteIfHigher_spec p (voteFirst voteReq.MovieId slot.VotedMovies)).1,
      ?_, ?_, rfl, ?_, ?_⟩
    · simp only [VoteUp_spec, hp, hinc]
    · rw [hrun]
      exact getShowSchedule_write_same s _ _ _ slot _ hg
    · rw [hrun]
    · exact swapMovies_playing_max _ _ _ _ _ hswap
  · intro hid hlo hhi
    rw [VoteUpMovie_playing s voteReq slot p hvalid hg hp hid, incVotes_of_range p hlo hhi]
    exact ⟨rfl, getShowSchedule_write_same s _ _ _ slot _ hg⟩

theorem C4_voteUp_refines_increment_then_promote_witness :
    ValidVoteUp (voteFor "b") ∧ scenarioSlot.VotedMovies ≠ [] ∧
    (((⟨"p", "P", 3⟩ : Movie).Id ≠ (voteFor "b").MovieId →
      ∀ (k : Nat) (e : Movie), scenarioSlot.VotedMovies[k]? = some e →
        e.Id = (voteFor "b").MovieId →
        (∀ (j : Nat) (m : Movie), j < k → scenarioSlot.VotedMovies[j]? = some m →
          m.Id ≠ (voteFor "b").MovieId) →
        -2147483648 ≤ e.CurrentVotes → e.CurrentVotes < 2147483647 →
        ∃ slot' p',
          VoteUp_spec scenarioSlot (voteFor "b").MovieId = some slot' ∧
          getShowSchedule (VoteUpMovie (serverWith scenarioSlot) (.success ()) (voteFor "b")).1
            (voteFor "b").WeekDay (voteFor "b").ShowNumber (voteFor "b").Screen
            = .success slot' ∧
          slot'.Movie = some p' ∧
          (VoteUpMovie (serverWith scenarioSlot) (.success ()) (voteFor "b")).2 = .ok p' ∧
          (∀ m ∈ slot'.VotedMovies, m.CurrentVotes ≤ p'.CurrentVotes)) ∧
    ((⟨"p", "P", 3⟩ : Movie).Id = (voteFor "b").MovieId →
      -2147483648 ≤ (⟨"p", "P", 3⟩ : Movie).CurrentVotes →
      (⟨"p", "P", 3⟩ : Movie).CurrentVotes < 2147483647 →
      (VoteUpMovie (serverWith scenarioSlot) (.success ()) (voteFor "b")).2
        = .ok { (⟨"p", "P", 3⟩ : Movie) with
            CurrentVotes := (⟨"p", "P", 3⟩ : Movie).CurrentVotes + 1 } ∧
      getShowSchedule (VoteUpMovie (serverWith scenarioSlot) (.success ()) (voteFor "b")).1
        (voteFor "b").WeekDay (voteFor "b").ShowNumber (voteFor "b").Screen
        = .success { scenarioSlot with
            Movie := some { (⟨"p", "P", 3⟩ : Movie) with
              CurrentVotes := (⟨"p", "P", 3⟩ : Movie).CurrentVotes + 1 } })) ∧
    getShowSchedule (VoteUpMovie (serverWith scenarioSlot) (.success ()) (voteFor "b")).1
        1 1 "Screen 1"
      = .success ⟨"11am", some ⟨"a", "A", 5⟩, [⟨"p", "P", 3⟩, ⟨"b", "B", 3⟩]⟩ ∧
    VoteUp_spec scenarioSlot "b"
      = some ⟨"11am", some ⟨"a", "A", 5⟩, [⟨"p", "P", 3⟩, ⟨"b", "B", 3⟩]⟩ :=
  ⟨by decide, by decide,
   C4_voteUp_refines_increment_then_promote (serverWith scenarioSlot) (voteFor "b")
     scenarioSlot ⟨"p", "P", 3⟩ (by decide) rfl rfl (by decide), rfl, by decide⟩

/-- C17 (amended): for each public operation (authentication passing where the
operation authenticates), a request whose week day is outside 1..7, whose show
number is not positive, or whose required identifier (screen, movie id, and
for `VoteUpMovie` the user id) is empty or blank fails with the error of the
first failing check of that operation and leaves the store unchanged.  A week
day or show number out of range gives `errIncorrectVal` (status code
`InvalidArgument`), a blank identifier gives `errMissingCredential` (status
code `FailedPrecondition`).  The checks run in this order: `VoteUpMovie`
screen, user id, movie id, week day, show number; `CreateMovieDaySchedule`
week day, screen, movie id, show number; `AddVotedMovie` and
`DeleteMovieDaySchedule` week day, screen, show number, movie id;
`GetShowSchedule` week day, screen, show number; `GetDaySchedule` week day. -/
theorem C17_invalid_request_is_rejected :
    ((∀ val : String, (Err.errIncorrectVal val).code = .InvalidArgument) ∧
      (∀ cred : String, (Err.errMissingCredential cred).code = .FailedPrecondition)) ∧
    (∀ (s : scheduleAPIServer) (r : VoteUpMovieRequest),
      (trimSpaces r.Screen = "" →
        VoteUpMovie s (.success ()) r = (s, .error (.errMissingCredential "Screen"))) ∧
      (trimSpaces r.Screen ≠ "" → trimSpaces r.UserId = "" →
        VoteUpMovie s (.success ()) r = (s, .error (.errMissingCredential "User Id"))) ∧
      (trimSpaces r.Screen ≠ "" → trimSpaces r.UserId ≠ "" → trimSpaces r.MovieId = "" →
        VoteUpMovie s (.success ()) r = (s, .error (.errMissingCredential "Movie Id"))) ∧
      (trimSpaces r.Screen ≠ "" → trimSpaces r.UserId ≠ "" → trimSpaces r.MovieId ≠ "" →
        (r.WeekDay ≤ 0 ∨ 7 < r.WeekDay) →
        VoteUpMovie s (.success ()) r = (s, .error (.errIncorrectVal "Week day"))) ∧
      (trimSpaces r.Screen ≠ "" → trimSpaces r.UserId ≠ "" → trimSpaces r.MovieId ≠ "" →
        0 < r.WeekDay → r.WeekDay ≤ 7 → r.ShowNumber ≤ 0 →
        VoteUpMovie s (.success ()) r = (s, .error (.errIncorrectVal "Show number")))) ∧
    (∀ (s : scheduleAPIServer) (catalog : Reply Movie) (r : CreateMovieDayScheduleRequest),
      ((r.WeekDay ≤ 0 ∨ 7 < r.WeekDay) →
        CreateMovieDaySchedule s (.success ()) catalog r
          = (s, .error (.errIncorrectVal "Week day"))) ∧
      (0 < r.WeekDay → r.WeekDay ≤ 7 → trimSpaces r.Screen = "" →
        CreateMovieDaySchedule s (.success ()) catalog r
          = (s, .error (.errMissingCredential "Screen"))) ∧
      (0 < r.WeekDay → r.WeekDay ≤ 7 → trimSpaces r.Screen ≠ "" →
        trimSpaces r.MovieId = "" →
        CreateMovieDaySchedule s (.success ()) catalog r
          = (s, .error (.errMissingCredential "Movie Id"))) ∧
      (0 < r.WeekDay → r.WeekDay ≤ 7 → trimSpaces r.Screen ≠ "" →
        trimSpaces r.MovieId ≠ "" → r.Show ≤ 0 →
        CreateMovieDaySchedule s (.success ()) catalog r
          = (s, .error (.errIncorrectVal "Show number")))) ∧
    (∀ (s : scheduleAPIServer) (catalog : Reply Movie) (r : AddVotedMovieRequest),
      ((r.WeekDay ≤ 0 ∨ 7 < r.WeekDay) →
        AddVotedMovie s (.success ()) catalog r
          = (s, .error (.errIncorrectVal "Week day"))) ∧
      (0 < r.WeekDay → r.WeekDay ≤ 7 → trimSpaces r.Screen = "" →
        AddVotedMovie s (.success ()) catalog r
          = (s, .error (.errMissingCredential "Screen"))) ∧
      (0 < r.WeekDay → r.WeekDay ≤ 7 → trimSpaces r.Screen ≠ "" → r.Show ≤ 0 →
        AddVotedMovie s (.success ()) catalog r
          = (s, .error (.errIncorrectVal "Show number"))) ∧
      (0 < r.WeekDay → r.WeekDay ≤ 7 → trimSpaces r.Screen ≠ "" → 0 < r.Show →
        trimSpaces r.MovieId = "" →
        AddVotedMovie s (.success ()) catalog r
          = (s, .error (.errMissingCredential "Movie ID")))) ∧
    (∀ (s : scheduleAPIServer) (r : DeleteMovieDayScheduleRequest),
      ((r.WeekDay ≤ 0 ∨ 7 < r.WeekDay) →
        DeleteMovieDaySchedule s (.success ()) r
          = (s, .error (.errIncorrectVal "Week day"))) ∧
      (0 < r.WeekDay → r.WeekDay ≤ 7 → trimSpaces r.Screen = "" →
        DeleteMovieDaySchedule s (.success ()) r
          = (s, .error (.errMissingCredential "Screen"))) ∧
      (0 < r.WeekDay → r.WeekDay ≤ 7 → trimSpaces r.Screen ≠ "" → r.Show ≤ 0 →
        DeleteMovieDaySchedule s (.success ()) r
          = (s, .error (.errIncorrectVal "Show number"))) ∧
      (0 < r.WeekDay → r.WeekDay ≤ 7 → trimSpaces r.Screen ≠ "" → 0 < r.Show →
        trimSpaces r.MovieId = "" →
        DeleteMovieDaySchedule s (.success ()) r
          = (s, .error (.errMissingCredential "Movie ID")))) ∧
    (∀ (s : scheduleAPIServer) (r : GetShowScheduleRequest),
      ((r.WeekDay ≤ 0 ∨ 7 < r.WeekDay) →
        GetShowSchedule s r = .error (.errIncorrectVal "Week day")) ∧
      (0 < r.WeekDay → r.WeekDay ≤ 7 → trimSpaces r.Screen = "" →
        GetShowSchedule s r = .error (.errMissingCredential "Screen")) ∧
      (0 < r.WeekDay → r.WeekDay ≤ 7 → trimSpaces r.Screen ≠ "" → r.Show ≤ 0 →
        GetShowSchedule s r = .error (.errIncorrectVal "Show number"))) ∧
    (∀ (s : scheduleAPIServer) (r : GetDayScheduleRequest),
      (r.WeekDay ≤ 0 ∨ 7 < r.WeekDay) →
      GetDaySchedule s r = .error (.errIncorrectVal "Week Day")) := by
  refine ⟨⟨fun _ => rfl, fun _ => rfl⟩, ?_, ?_, ?_, ?_, ?_, ?_⟩
  · intro s r
    refine ⟨?_, ?_, ?_, ?_, ?_⟩
    · intro h1
      simp [VoteUpMovie, validateVoteUp, h1]
    · intro h1 h2
      simp [VoteUpMovie, validateVoteUp, h1, h2]
    · intro h1 h2 h3
      simp [VoteUpMovie, validateVoteUp, h1, h2, h3]
    · intro h1 h2 h3 h4
      have h4' : r.WeekDay ≤ 0 ∨ r.WeekDay > 7 := h4
      simp only [VoteUpMovie, validateVoteUp, if_neg h1, if_neg h2, if_neg h3, if_pos h4']
    · intro h1 h2 h3 h4 h5 h6
      have h45 : ¬ (r.WeekDay ≤ 0 ∨ r.WeekDay > 7) := by omega
      simp only [VoteUpMovie, validateVoteUp, if_neg h1, if_neg h2, if_neg h3, if_neg h45,
        if_pos h6]
  · intro s catalog r
    refine ⟨?_, ?_, ?_, ?_⟩
    · intro h1
      have h1' : r.WeekDay ≤ 0 ∨ r.WeekDay > 7 := h1
      simp only [CreateMovieDaySchedule, validateCreate, if_pos h1']
    · intro h1 h2 h3
      have hw : ¬ (r.WeekDay ≤ 0 ∨ r.WeekDay > 7) := by omega
      simp only [CreateMovieDaySchedule, validateCreate, if_neg hw, if_pos h3]
    · intro h1 h2 h3 h4
      have hw : ¬ (r.WeekDay ≤ 0 ∨ r.WeekDay > 7) := by omega
      simp only [CreateMovieDaySchedule, validateCreate, if_neg hw, if_neg h3, if_pos h4]
    · intro h1 h2 h3 h4 h5
      have hw : ¬ (r.WeekDay ≤ 0 ∨ r.WeekDay > 7) := by omega
      simp only [CreateMovieDaySchedule, validateCreate, if_neg hw, if_neg h3, if_neg h4,
        if_pos h5]
  · intro s catalog r
    refine ⟨?_, ?_, ?_, ?_⟩
    · intro h1
      have h1' : r.WeekDay ≤ 0 ∨ r.WeekDay > 7 := h1
      simp only [AddVotedMovie, validateAdd, if_pos h1']
    · intro h1 h2 h3
      have hw : ¬ (r.WeekDay ≤ 0 ∨ r.WeekDay > 7) := by omega
      simp only [AddVotedMovie, validateAdd, if_neg hw, if_pos h3]
    · intro h1 h2 h3 h4
      have hw : ¬ (r.WeekDay ≤ 0 ∨ r.WeekDay > 7) := by omega
      simp only [AddVotedMovie, validateAdd, if_neg hw, if_neg h3, if_pos h4]
    · intro h1 h2 h3 h4 h5
      have hw : ¬ (r.WeekDay ≤ 0 ∨ r.WeekDay > 7) := by omega
      have hs : ¬ r.Show ≤ 0 := by omega
      simp only [AddVotedMovie, validateAdd, if_neg hw, if_neg h3, if_neg hs, if_pos h5]
  · intro s r
    refine ⟨?_, ?_, ?_, ?_⟩
    · intro h1
      have h1' : r.WeekDay ≤ 0 ∨ r.WeekDay > 7 := h1
      simp only [DeleteMovieDaySchedule, validateDelete, if_pos h1']
    · intro h1 h2 h3
      have hw : ¬ (r.WeekDay ≤ 0 ∨ r.WeekDay > 7) := by omega
      simp only [DeleteMovieDaySchedule, validateDelete, if_neg hw, if_pos h3]
    · intro h1 h2 h3 h4
      have hw : ¬ (r.WeekDay ≤ 0 ∨ r.WeekDay > 7) := by omega
      simp only [DeleteMovieDaySchedule, validateDelete, if_neg hw, if_neg h3, if_pos h4]
    · intro h1 h2 h3 h4 h5
      have hw : ¬ (r.WeekDay ≤ 0 ∨ r.WeekDay > 7) := by omega
      have hs : ¬ r.Show ≤ 0 := by omega
      simp only [DeleteMovieDaySchedule, validateDelete, if_neg hw, if_neg h3, if_neg hs,
        if_pos h5]
  · intro s r
    refine ⟨?_, ?_, ?_⟩
    · intro h1
      have h1' : r.WeekDay ≤ 0 ∨ r.WeekDay > 7 := h1
      simp only [GetShowSchedule, validateGetShow, if_pos h1']
    · intro h1 h2 h3
      have hw : ¬ (r.WeekDay ≤ 0 ∨ r.WeekDay > 7) := by omega
      simp only [GetShowSchedule, validateGetShow, if_neg hw, if_pos h3]
    · intro h1 h2 h3 h4
      have hw : ¬ (r.WeekDay ≤ 0 ∨ r.WeekDay > 7) := by omega
      simp only [GetShowSchedule, validateGetShow, if_neg hw, if_neg h3, if_pos h4]
  · intro s r h1
    have h1' : r.WeekDay ≤ 0 ∨ r.WeekDay > 7 := h1
    simp only [GetDaySchedule, if_pos h1']

theorem C17_invalid_request_is_rejected_witness :
    (0 : Int) < 3 ∧ (3 : Int) ≤ 7 ∧ trimSpaces "Screen 1" ≠ "" ∧ (0 : Int) < 1 ∧
    trimSpaces "  " = "" ∧
    DeleteMovieDaySchedule (initializeSchedule emptyServer) (.success ())
        ⟨3, "Screen 1", 1, "  "⟩
      = (initializeSchedule emptyServer, .error (.errMissingCredential "Movie ID")) :=
  ⟨by decide, by decide, by decide, by decide, by decide,
   (C17_invalid_request_is_rejected.2.2.2.2.1 (initializeSchedule emptyServer)
      ⟨3, "Screen 1", 1, "  "⟩).2.2.2 (by decide) (by decide) (by decide) (by decide)
      (by decide)⟩

end Scheduling
